import Mathlib

/-!
Verification development for the statement-splitting core of the jrny
repository (src/statements.rs).

The Rust code splits a SQL script into individual statements with a
quote-aware character scanner (`Parser::accept`) and a transaction-keyword
rejection policy (`StatementGroup::try_from`).  Strings are modelled as
lists of characters.  Rust's `str::to_lowercase` is modelled in full:
the ASCII fast path, the Unicode one-to-many lowercase conversion table,
and the context-dependent final-sigma rule with its Cased /
Case_Ignorable lookups (tables reproduced below from the Unicode
character database).  Rust's `char::is_whitespace` is the Unicode
White_Space property, also reproduced below.
-/

set_option maxRecDepth 20000

namespace Jrny

/-- The single-quote character. -/
def squote : Char := Char.ofNat 39

/-- The double-quote character. -/
def dquote : Char := Char.ofNat 34

/-- Rust `char::is_whitespace`: the Unicode White_Space property. -/
def rustIsWhitespace (c : Char) : Bool :=
  (9 ≤ c.toNat && c.toNat ≤ 13) || c.toNat = 32 || c.toNat = 133 || c.toNat = 160 ||
  c.toNat = 5760 || (8192 ≤ c.toNat && c.toNat ≤ 8202) || c.toNat = 8232 ||
  c.toNat = 8233 || c.toNat = 8239 || c.toNat = 8287 || c.toNat = 12288

/-- Rust `str::trim` on the character-list model: remove leading and
trailing whitespace. -/
def rustTrim (l : List Char) : List Char :=
  ((l.dropWhile rustIsWhitespace).reverse.dropWhile rustIsWhitespace).reverse

/-- Split a character list at every newline; always returns one more
segment than there are newlines (helper for `rustLines`). -/
def splitNL : List Char → List (List Char)
  | [] => [[]]
  | c :: cs =>
    if c = '\n' then [] :: splitNL cs
    else
      match splitNL cs with
      | [] => [[c]]
      | seg :: rest => (c :: seg) :: rest

/-- Drop one trailing carriage return, as Rust `lines()` does on each
newline-terminated segment. -/
def stripCR (l : List Char) : List Char :=
  if l.getLast? = some '\r' then l.dropLast else l

/-- Rust `str::lines`: split at newlines, strip one `\r` from each
newline-terminated segment, and drop a trailing empty segment. -/
def rustLines (s : List Char) : List (List Char) :=
  match (splitNL s).getLast? with
  | none => []
  | some last =>
    ((splitNL s).dropLast.map stripCR) ++ (if last.isEmpty then [] else [last])

/-- The comment filter of `try_from`: a line whose trimmed form starts
with two hyphens. -/
def isCommentLine (l : List Char) : Bool := ['-', '-'].isPrefixOf (rustTrim l)

/-- The scanner state of `Parser` in src/statements.rs: the accumulated
fragments and the two quoting flags.  `Default` in Rust gives the empty
vector and two false flags. -/
structure Parser where
  statements : List (List Char)
  in_string : Bool
  in_delimited_identifier : Bool
  deriving DecidableEq

/-- The initial scanner state (`Parser::default()`). -/
def initParser : Parser :=
  { statements := [], in_string := false, in_delimited_identifier := false }

/-- Rust `self.statements.last_mut()` followed by pushing `c`: `none`
exactly when the list is empty (where the Rust code would `unwrap` a
`None`). -/
def lastMutPush (c : Char) : List (List Char) → Option (List (List Char))
  | [] => none
  | [s] => some [s ++ [c]]
  | s :: rest => (lastMutPush c rest).map (fun r => s :: r)

/-- The two quote-flag updates at the top of `Parser::accept`, in source
order (the double-quote guard reads the possibly-updated string flag). -/
def updateFlags (p : Parser) (c : Char) : Parser :=
  let p1 :=
    if c = squote ∧ p.in_delimited_identifier = false then
      { p with in_string := !p.in_string }
    else p
  if c = dquote ∧ p1.in_string = false then
    { p1 with in_delimited_identifier := !p1.in_delimited_identifier }
  else p1

/-- `Parser::accept`: update the quote flags, split at a top-level
semicolon, otherwise append the character to the current (last) fragment,
lazily creating it.  The `none` branch of the final match models the
`unwrap` in the source; it is proved unreachable below. -/
def Parser.accept (p0 : Parser) (c : Char) : Parser :=
  let p := updateFlags p0 c
  if c = ';' ∧ p.in_string = false ∧ p.in_delimited_identifier = false then
    { p with statements := p.statements ++ [[]] }
  else
    let sts := if p.statements.isEmpty then p.statements ++ [[]] else p.statements
    match lastMutPush c sts with
    | some sts2 => { p with statements := sts2 }
    | none => { p with statements := sts }

/-- Feed every character, in order, to a fresh scanner (the `for` loop in
`try_from`). -/
def scanChars (cs : List Char) : Parser := cs.foldl Parser.accept initParser

/-- The comment pre-filter of `try_from`: keep the non-comment lines and
re-join them, appending a newline after each kept line (the Rust fold
`a + b + "\n"`). -/
def withoutComments (input : List Char) : List Char :=
  ((rustLines input).filter (fun l => !(isCommentLine l))).foldl
    (fun a b => a ++ b ++ ['\n']) []

/-- The candidate statements of `try_from`: scan the filtered text, trim
every fragment, and drop the fragments that trim to nothing. -/
def candidates (input : List Char) : List (List Char) :=
  ((scanChars (withoutComments input)).statements.map rustTrim).filter
    (fun s => !s.isEmpty)

/-- The four reserved transaction keywords, in the order the source checks
them. -/
def keywords : List (List Char) :=
  ["begin".toList, "savepoint".toList, "rollback".toList, "commit".toList]

/-- The Unicode one-to-many lowercase mappings of Rust
`core::unicode::conversions::to_lower` for non-ASCII characters, as
`(codepoint, up to three lowercase codepoints, zero-padded)`; generated
from the Unicode character database. -/
def lowercaseTable0 : List (Nat × Nat × Nat × Nat) := [
  (192, 224, 0, 0), (193, 225, 0, 0), (194, 226, 0, 0), (195, 227, 0, 0), (196, 228, 0, 0),
  (197, 229, 0, 0), (198, 230, 0, 0), (199, 231, 0, 0), (200, 232, 0, 0), (201, 233, 0, 0),
  (202, 234, 0, 0), (203, 235, 0, 0), (204, 236, 0, 0), (205, 237, 0, 0), (206, 238, 0, 0),
  (207, 239, 0, 0), (208, 240, 0, 0), (209, 241, 0, 0), (210, 242, 0, 0), (211, 243, 0, 0),
  (212, 244, 0, 0), (213, 245, 0, 0), (214, 246, 0, 0), (216, 248, 0, 0), (217, 249, 0, 0),
  (218, 250, 0, 0), (219, 251, 0, 0), (220, 252, 0, 0), (221, 253, 0, 0), (222, 254, 0, 0),
  (256, 257, 0, 0), (258, 259, 0, 0), (260, 261, 0, 0), (262, 263, 0, 0), (264, 265, 0, 0),
  (266, 267, 0, 0), (268, 269, 0, 0), (270, 271, 0, 0), (272, 273, 0, 0), (274, 275, 0, 0),
  (276, 277, 0, 0), (278, 279, 0, 0), (280, 281, 0, 0), (282, 283, 0, 0), (284, 285, 0, 0),
  (286, 287, 0, 0), (288, 289, 0, 0), (290, 291, 0, 0), (292, 293, 0, 0), (294, 295, 0, 0),
  (296, 297, 0, 0), (298, 299, 0, 0), (300, 301, 0, 0), (302, 303, 0, 0), (304, 105, 775, 0),
  (306, 307, 0, 0), (308, 309, 0, 0), (310, 311, 0, 0), (313, 314, 0, 0), (315, 316, 0, 0),
  (317, 318, 0, 0), (319, 320, 0, 0), (321, 322, 0, 0), (323, 324, 0, 0), (325, 326, 0, 0),
  (327, 328, 0, 0), (330, 331, 0, 0), (332, 333, 0, 0), (334, 335, 0, 0), (336, 337, 0, 0),
  (338, 339, 0, 0), (340, 341, 0, 0), (342, 343, 0, 0), (344, 345, 0, 0), (346, 347, 0, 0),
  (348, 349, 0, 0), (350, 351, 0, 0), (352, 353, 0, 0), (354, 355, 0, 0), (356, 357, 0, 0),
  (358, 359, 0, 0), (360, 361, 0, 0), (362, 363, 0, 0), (364, 365, 0, 0), (366, 367, 0, 0),
  (368, 369, 0, 0), (370, 371, 0, 0), (372, 373, 0, 0), (374, 375, 0, 0), (376, 255, 0, 0),
  (377, 378, 0, 0), (379, 380, 0, 0), (381, 382, 0, 0), (385, 595, 0, 0), (386, 387, 0, 0),
  (388, 389, 0, 0), (390, 596, 0, 0), (391, 392, 0, 0), (393, 598, 0, 0), (394, 599, 0, 0),
  (395, 396, 0, 0), (398, 477, 0, 0), (399, 601, 0, 0), (400, 603, 0, 0), (401, 402, 0, 0),
  (403, 608, 0, 0), (404, 611, 0, 0), (406, 617, 0, 0), (407, 616, 0, 0), (408, 409, 0, 0),
  (412, 623, 0, 0), (413, 626, 0, 0), (415, 629, 0, 0), (416, 417, 0, 0), (418, 419, 0, 0),
  (420, 421, 0, 0), (422, 640, 0, 0), (423, 424, 0, 0), (425, 643, 0, 0), (428, 429, 0, 0),
  (430, 648, 0, 0), (431, 432, 0, 0), (433, 650, 0, 0), (434, 651, 0, 0), (435, 436, 0, 0),
  (437, 438, 0, 0), (439, 658, 0, 0), (440, 441, 0, 0), (444, 445, 0, 0), (452, 454, 0, 0),
  (453, 454, 0, 0), (455, 457, 0, 0), (456, 457, 0, 0), (458, 460, 0, 0), (459, 460, 0, 0),
  (461, 462, 0, 0), (463, 464, 0, 0), (465, 466, 0, 0), (467, 468, 0, 0), (469, 470, 0, 0),
  (471, 472, 0, 0), (473, 474, 0, 0), (475, 476, 0, 0), (478, 479, 0, 0), (480, 481, 0, 0),
  (482, 483, 0, 0), (484, 485, 0, 0), (486, 487, 0, 0), (488, 489, 0, 0), (490, 491, 0, 0),
  (492, 493, 0, 0), (494, 495, 0, 0), (497, 499, 0, 0), (498, 499, 0, 0), (500, 501, 0, 0),
  (502, 405, 0, 0), (503, 447, 0, 0), (504, 505, 0, 0), (506, 507, 0, 0), (508, 509, 0, 0),
  (510, 511, 0, 0), (512, 513, 0, 0), (514, 515, 0, 0), (516, 517, 0, 0), (518, 519, 0, 0),
  (520, 521, 0, 0), (522, 523, 0, 0), (524, 525, 0, 0), (526, 527, 0, 0), (528, 529, 0, 0),
  (530, 531, 0, 0), (532, 533, 0, 0), (534, 535, 0, 0), (536, 537, 0, 0), (538, 539, 0, 0),
  (540, 541, 0, 0), (542, 543, 0, 0), (544, 414, 0, 0), (546, 547, 0, 0), (548, 549, 0, 0),
  (550, 551, 0, 0), (552, 553, 0, 0), (554, 555, 0, 0), (556, 557, 0, 0), (558, 559, 0, 0),
  (560, 561, 0, 0), (562, 563, 0, 0), (570, 11365, 0, 0), (571, 572, 0, 0), (573, 410, 0, 0),
  (574, 11366, 0, 0), (577, 578, 0, 0), (579, 384, 0, 0), (580, 649, 0, 0), (581, 652, 0, 0),
  (582, 583, 0, 0), (584, 585, 0, 0), (586, 587, 0, 0), (588, 589, 0, 0), (590, 591, 0, 0)]

def lowercaseTable1 : List (Nat × Nat × Nat × Nat) := [
  (880, 881, 0, 0), (882, 883, 0, 0), (886, 887, 0, 0), (895, 1011, 0, 0), (902, 940, 0, 0),
  (904, 941, 0, 0), (905, 942, 0, 0), (906, 943, 0, 0), (908, 972, 0, 0), (910, 973, 0, 0),
  (911, 974, 0, 0), (913, 945, 0, 0), (914, 946, 0, 0), (915, 947, 0, 0), (916, 948, 0, 0),
  (917, 949, 0, 0), (918, 950, 0, 0), (919, 951, 0, 0), (920, 952, 0, 0), (921, 953, 0, 0),
  (922, 954, 0, 0), (923, 955, 0, 0), (924, 956, 0, 0), (925, 957, 0, 0), (926, 958, 0, 0),
  (927, 959, 0, 0), (928, 960, 0, 0), (929, 961, 0, 0), (931, 963, 0, 0), (932, 964, 0, 0),
  (933, 965, 0, 0), (934, 966, 0, 0), (935, 967, 0, 0), (936, 968, 0, 0), (937, 969, 0, 0),
  (938, 970, 0, 0), (939, 971, 0, 0), (975, 983, 0, 0), (984, 985, 0, 0), (986, 987, 0, 0),
  (988, 989, 0, 0), (990, 991, 0, 0), (992, 993, 0, 0), (994, 995, 0, 0), (996, 997, 0, 0),
  (998, 999, 0, 0), (1000, 1001, 0, 0), (1002, 1003, 0, 0), (1004, 1005, 0, 0), (1006, 1007, 0, 0),
  (1012, 952, 0, 0), (1015, 1016, 0, 0), (1017, 1010, 0, 0), (1018, 1019, 0, 0), (1021, 891, 0, 0),
  (1022, 892, 0, 0), (1023, 893, 0, 0), (1024, 1104, 0, 0), (1025, 1105, 0, 0), (1026, 1106, 0, 0),
  (1027, 1107, 0, 0), (1028, 1108, 0, 0), (1029, 1109, 0, 0), (1030, 1110, 0, 0), (1031, 1111, 0, 0),
  (1032, 1112, 0, 0), (1033, 1113, 0, 0), (1034, 1114, 0, 0), (1035, 1115, 0, 0), (1036, 1116, 0, 0),
  (1037, 1117, 0, 0), (1038, 1118, 0, 0), (1039, 1119, 0, 0), (1040, 1072, 0, 0), (1041, 1073, 0, 0),
  (1042, 1074, 0, 0), (1043, 1075, 0, 0), (1044, 1076, 0, 0), (1045, 1077, 0, 0), (1046, 1078, 0, 0),
  (1047, 1079, 0, 0), (1048, 1080, 0, 0), (1049, 1081, 0, 0), (1050, 1082, 0, 0), (1051, 1083, 0, 0),
  (1052, 1084, 0, 0), (1053, 1085, 0, 0), (1054, 1086, 0, 0), (1055, 1087, 0, 0), (1056, 1088, 0, 0),
  (1057, 1089, 0, 0), (1058, 1090, 0, 0), (1059, 1091, 0, 0), (1060, 1092, 0, 0), (1061, 1093, 0, 0),
  (1062, 1094, 0, 0), (1063, 1095, 0, 0), (1064, 1096, 0, 0), (1065, 1097, 0, 0), (1066, 1098, 0, 0),
  (1067, 1099, 0, 0), (1068, 1100, 0, 0), (1069, 1101, 0, 0), (1070, 1102, 0, 0), (1071, 1103, 0, 0),
  (1120, 1121, 0, 0), (1122, 1123, 0, 0), (1124, 1125, 0, 0), (1126, 1127, 0, 0), (1128, 1129, 0, 0),
  (1130, 1131, 0, 0), (1132, 1133, 0, 0), (1134, 1135, 0, 0), (1136, 1137, 0, 0), (1138, 1139, 0, 0),
  (1140, 1141, 0, 0), (1142, 1143, 0, 0), (1144, 1145, 0, 0), (1146, 1147, 0, 0), (1148, 1149, 0, 0),
  (1150, 1151, 0, 0), (1152, 1153, 0, 0), (1162, 1163, 0, 0), (1164, 1165, 0, 0), (1166, 1167, 0, 0),
  (1168, 1169, 0, 0), (1170, 1171, 0, 0), (1172, 1173, 0, 0), (1174, 1175, 0, 0), (1176, 1177, 0, 0),
  (1178, 1179, 0, 0), (1180, 1181, 0, 0), (1182, 1183, 0, 0), (1184, 1185, 0, 0), (1186, 1187, 0, 0),
  (1188, 1189, 0, 0), (1190, 1191, 0, 0), (1192, 1193, 0, 0), (1194, 1195, 0, 0), (1196, 1197, 0, 0),
  (1198, 1199, 0, 0), (1200, 1201, 0, 0), (1202, 1203, 0, 0), (1204, 1205, 0, 0), (1206, 1207, 0, 0),
  (1208, 1209, 0, 0), (1210, 1211, 0, 0), (1212, 1213, 0, 0), (1214, 1215, 0, 0), (1216, 1231, 0, 0),
  (1217, 1218, 0, 0), (1219, 1220, 0, 0), (1221, 1222, 0, 0), (1223, 1224, 0, 0), (1225, 1226, 0, 0),
  (1227, 1228, 0, 0), (1229, 1230, 0, 0), (1232, 1233, 0, 0), (1234, 1235, 0, 0), (1236, 1237, 0, 0),
  (1238, 1239, 0, 0), (1240, 1241, 0, 0), (1242, 1243, 0, 0), (1244, 1245, 0, 0), (1246, 1247, 0, 0),
  (1248, 1249, 0, 0), (1250, 1251, 0, 0), (1252, 1253, 0, 0), (1254, 1255, 0, 0), (1256, 1257, 0, 0),
  (1258, 1259, 0, 0), (1260, 1261, 0, 0), (1262, 1263, 0, 0), (1264, 1265, 0, 0), (1266, 1267, 0, 0),
  (1268, 1269, 0, 0), (1270, 1271, 0, 0), (1272, 1273, 0, 0), (1274, 1275, 0, 0), (1276, 1277, 0, 0),
  (1278, 1279, 0, 0), (1280, 1281, 0, 0), (1282, 1283, 0, 0), (1284, 1285, 0, 0), (1286, 1287, 0, 0),
  (1288, 1289, 0, 0), (1290, 1291, 0, 0), (1292, 1293, 0, 0), (1294, 1295, 0, 0), (1296, 1297, 0, 0),
  (1298, 1299, 0, 0), (1300, 1301, 0, 0), (1302, 1303, 0, 0), (1304, 1305, 0, 0), (1306, 1307, 0, 0),
  (1308, 1309, 0, 0), (1310, 1311, 0, 0), (1312, 1313, 0, 0), (1314, 1315, 0, 0), (1316, 1317, 0, 0)]

def lowercaseTable2 : List (Nat × Nat × Nat × Nat) := [
  (1318, 1319, 0, 0), (1320, 1321, 0, 0), (1322, 1323, 0, 0), (1324, 1325, 0, 0), (1326, 1327, 0, 0),
  (1329, 1377, 0, 0), (1330, 1378, 0, 0), (1331, 1379, 0, 0), (1332, 1380, 0, 0), (1333, 1381, 0, 0),
  (1334, 1382, 0, 0), (1335, 1383, 0, 0), (1336, 1384, 0, 0), (1337, 1385, 0, 0), (1338, 1386, 0, 0),
  (1339, 1387, 0, 0), (1340, 1388, 0, 0), (1341, 1389, 0, 0), (1342, 1390, 0, 0), (1343, 1391, 0, 0),
  (1344, 1392, 0, 0), (1345, 1393, 0, 0), (1346, 1394, 0, 0), (1347, 1395, 0, 0), (1348, 1396, 0, 0),
  (1349, 1397, 0, 0), (1350, 1398, 0, 0), (1351, 1399, 0, 0), (1352, 1400, 0, 0), (1353, 1401, 0, 0),
  (1354, 1402, 0, 0), (1355, 1403, 0, 0), (1356, 1404, 0, 0), (1357, 1405, 0, 0), (1358, 1406, 0, 0),
  (1359, 1407, 0, 0), (1360, 1408, 0, 0), (1361, 1409, 0, 0), (1362, 1410, 0, 0), (1363, 1411, 0, 0),
  (1364, 1412, 0, 0), (1365, 1413, 0, 0), (1366, 1414, 0, 0), (4256, 11520, 0, 0), (4257, 11521, 0, 0),
  (4258, 11522, 0, 0), (4259, 11523, 0, 0), (4260, 11524, 0, 0), (4261, 11525, 0, 0), (4262, 11526, 0, 0),
  (4263, 11527, 0, 0), (4264, 11528, 0, 0), (4265, 11529, 0, 0), (4266, 11530, 0, 0), (4267, 11531, 0, 0),
  (4268, 11532, 0, 0), (4269, 11533, 0, 0), (4270, 11534, 0, 0), (4271, 11535, 0, 0), (4272, 11536, 0, 0),
  (4273, 11537, 0, 0), (4274, 11538, 0, 0), (4275, 11539, 0, 0), (4276, 11540, 0, 0), (4277, 11541, 0, 0),
  (4278, 11542, 0, 0), (4279, 11543, 0, 0), (4280, 11544, 0, 0), (4281, 11545, 0, 0), (4282, 11546, 0, 0),
  (4283, 11547, 0, 0), (4284, 11548, 0, 0), (4285, 11549, 0, 0), (4286, 11550, 0, 0), (4287, 11551, 0, 0),
  (4288, 11552, 0, 0), (4289, 11553, 0, 0), (4290, 11554, 0, 0), (4291, 11555, 0, 0), (4292, 11556, 0, 0),
  (4293, 11557, 0, 0), (4295, 11559, 0, 0), (4301, 11565, 0, 0), (5024, 43888, 0, 0), (5025, 43889, 0, 0),
  (5026, 43890, 0, 0), (5027, 43891, 0, 0), (5028, 43892, 0, 0), (5029, 43893, 0, 0), (5030, 43894, 0, 0),
  (5031, 43895, 0, 0), (5032, 43896, 0, 0), (5033, 43897, 0, 0), (5034, 43898, 0, 0), (5035, 43899, 0, 0),
  (5036, 43900, 0, 0), (5037, 43901, 0, 0), (5038, 43902, 0, 0), (5039, 43903, 0, 0), (5040, 43904, 0, 0),
  (5041, 43905, 0, 0), (5042, 43906, 0, 0), (5043, 43907, 0, 0), (5044, 43908, 0, 0), (5045, 43909, 0, 0),
  (5046, 43910, 0, 0), (5047, 43911, 0, 0), (5048, 43912, 0, 0), (5049, 43913, 0, 0), (5050, 43914, 0, 0),
  (5051, 43915, 0, 0), (5052, 43916, 0, 0), (5053, 43917, 0, 0), (5054, 43918, 0, 0), (5055, 43919, 0, 0),
  (5056, 43920, 0, 0), (5057, 43921, 0, 0), (5058, 43922, 0, 0), (5059, 43923, 0, 0), (5060, 43924, 0, 0),
  (5061, 43925, 0, 0), (5062, 43926, 0, 0), (5063, 43927, 0, 0), (5064, 43928, 0, 0), (5065, 43929, 0, 0),
  (5066, 43930, 0, 0), (5067, 43931, 0, 0), (5068, 43932, 0, 0), (5069, 43933, 0, 0), (5070, 43934, 0, 0),
  (5071, 43935, 0, 0), (5072, 43936, 0, 0), (5073, 43937, 0, 0), (5074, 43938, 0, 0), (5075, 43939, 0, 0),
  (5076, 43940, 0, 0), (5077, 43941, 0, 0), (5078, 43942, 0, 0), (5079, 43943, 0, 0), (5080, 43944, 0, 0),
  (5081, 43945, 0, 0), (5082, 43946, 0, 0), (5083, 43947, 0, 0), (5084, 43948, 0, 0), (5085, 43949, 0, 0),
  (5086, 43950, 0, 0), (5087, 43951, 0, 0), (5088, 43952, 0, 0), (5089, 43953, 0, 0), (5090, 43954, 0, 0),
  (5091, 43955, 0, 0), (5092, 43956, 0, 0), (5093, 43957, 0, 0), (5094, 43958, 0, 0), (5095, 43959, 0, 0),
  (5096, 43960, 0, 0), (5097, 43961, 0, 0), (5098, 43962, 0, 0), (5099, 43963, 0, 0), (5100, 43964, 0, 0),
  (5101, 43965, 0, 0), (5102, 43966, 0, 0), (5103, 43967, 0, 0), (5104, 5112, 0, 0), (5105, 5113, 0, 0),
  (5106, 5114, 0, 0), (5107, 5115, 0, 0), (5108, 5116, 0, 0), (5109, 5117, 0, 0), (7312, 4304, 0, 0),
  (7313, 4305, 0, 0), (7314, 4306, 0, 0), (7315, 4307, 0, 0), (7316, 4308, 0, 0), (7317, 4309, 0, 0),
  (7318, 4310, 0, 0), (7319, 4311, 0, 0), (7320, 4312, 0, 0), (7321, 4313, 0, 0), (7322, 4314, 0, 0),
  (7323, 4315, 0, 0), (7324, 4316, 0, 0), (7325, 4317, 0, 0), (7326, 4318, 0, 0), (7327, 4319, 0, 0),
  (7328, 4320, 0, 0), (7329, 4321, 0, 0), (7330, 4322, 0, 0), (7331, 4323, 0, 0), (7332, 4324, 0, 0),
  (7333, 4325, 0, 0), (7334, 4326, 0, 0), (7335, 4327, 0, 0), (7336, 4328, 0, 0), (7337, 4329, 0, 0),
  (7338, 4330, 0, 0), (7339, 4331, 0, 0), (7340, 4332, 0, 0), (7341, 4333, 0, 0), (7342, 4334, 0, 0)]

def lowercaseTable3 : List (Nat × Nat × Nat × Nat) := [
  (7343, 4335, 0, 0), (7344, 4336, 0, 0), (7345, 4337, 0, 0), (7346, 4338, 0, 0), (7347, 4339, 0, 0),
  (7348, 4340, 0, 0), (7349, 4341, 0, 0), (7350, 4342, 0, 0), (7351, 4343, 0, 0), (7352, 4344, 0, 0),
  (7353, 4345, 0, 0), (7354, 4346, 0, 0), (7357, 4349, 0, 0), (7358, 4350, 0, 0), (7359, 4351, 0, 0),
  (7680, 7681, 0, 0), (7682, 7683, 0, 0), (7684, 7685, 0, 0), (7686, 7687, 0, 0), (7688, 7689, 0, 0),
  (7690, 7691, 0, 0), (7692, 7693, 0, 0), (7694, 7695, 0, 0), (7696, 7697, 0, 0), (7698, 7699, 0, 0),
  (7700, 7701, 0, 0), (7702, 7703, 0, 0), (7704, 7705, 0, 0), (7706, 7707, 0, 0), (7708, 7709, 0, 0),
  (7710, 7711, 0, 0), (7712, 7713, 0, 0), (7714, 7715, 0, 0), (7716, 7717, 0, 0), (7718, 7719, 0, 0),
  (7720, 7721, 0, 0), (7722, 7723, 0, 0), (7724, 7725, 0, 0), (7726, 7727, 0, 0), (7728, 7729, 0, 0),
  (7730, 7731, 0, 0), (7732, 7733, 0, 0), (7734, 7735, 0, 0), (7736, 7737, 0, 0), (7738, 7739, 0, 0),
  (7740, 7741, 0, 0), (7742, 7743, 0, 0), (7744, 7745, 0, 0), (7746, 7747, 0, 0), (7748, 7749, 0, 0),
  (7750, 7751, 0, 0), (7752, 7753, 0, 0), (7754, 7755, 0, 0), (7756, 7757, 0, 0), (7758, 7759, 0, 0),
  (7760, 7761, 0, 0), (7762, 7763, 0, 0), (7764, 7765, 0, 0), (7766, 7767, 0, 0), (7768, 7769, 0, 0),
  (7770, 7771, 0, 0), (7772, 7773, 0, 0), (7774, 7775, 0, 0), (7776, 7777, 0, 0), (7778, 7779, 0, 0),
  (7780, 7781, 0, 0), (7782, 7783, 0, 0), (7784, 7785, 0, 0), (7786, 7787, 0, 0), (7788, 7789, 0, 0),
  (7790, 7791, 0, 0), (7792, 7793, 0, 0), (7794, 7795, 0, 0), (7796, 7797, 0, 0), (7798, 7799, 0, 0),
  (7800, 7801, 0, 0), (7802, 7803, 0, 0), (7804, 7805, 0, 0), (7806, 7807, 0, 0), (7808, 7809, 0, 0),
  (7810, 7811, 0, 0), (7812, 7813, 0, 0), (7814, 7815, 0, 0), (7816, 7817, 0, 0), (7818, 7819, 0, 0),
  (7820, 7821, 0, 0), (7822, 7823, 0, 0), (7824, 7825, 0, 0), (7826, 7827, 0, 0), (7828, 7829, 0, 0),
  (7838, 223, 0, 0), (7840, 7841, 0, 0), (7842, 7843, 0, 0), (7844, 7845, 0, 0), (7846, 7847, 0, 0),
  (7848, 7849, 0, 0), (7850, 7851, 0, 0), (7852, 7853, 0, 0), (7854, 7855, 0, 0), (7856, 7857, 0, 0),
  (7858, 7859, 0, 0), (7860, 7861, 0, 0), (7862, 7863, 0, 0), (7864, 7865, 0, 0), (7866, 7867, 0, 0),
  (7868, 7869, 0, 0), (7870, 7871, 0, 0), (7872, 7873, 0, 0), (7874, 7875, 0, 0), (7876, 7877, 0, 0),
  (7878, 7879, 0, 0), (7880, 7881, 0, 0), (7882, 7883, 0, 0), (7884, 7885, 0, 0), (7886, 7887, 0, 0),
  (7888, 7889, 0, 0), (7890, 7891, 0, 0), (7892, 7893, 0, 0), (7894, 7895, 0, 0), (7896, 7897, 0, 0),
  (7898, 7899, 0, 0), (7900, 7901, 0, 0), (7902, 7903, 0, 0), (7904, 7905, 0, 0), (7906, 7907, 0, 0),
  (7908, 7909, 0, 0), (7910, 7911, 0, 0), (7912, 7913, 0, 0), (7914, 7915, 0, 0), (7916, 7917, 0, 0),
  (7918, 7919, 0, 0), (7920, 7921, 0, 0), (7922, 7923, 0, 0), (7924, 7925, 0, 0), (7926, 7927, 0, 0),
  (7928, 7929, 0, 0), (7930, 7931, 0, 0), (7932, 7933, 0, 0), (7934, 7935, 0, 0), (7944, 7936, 0, 0),
  (7945, 7937, 0, 0), (7946, 7938, 0, 0), (7947, 7939, 0, 0), (7948, 7940, 0, 0), (7949, 7941, 0, 0),
  (7950, 7942, 0, 0), (7951, 7943, 0, 0), (7960, 7952, 0, 0), (7961, 7953, 0, 0), (7962, 7954, 0, 0),
  (7963, 7955, 0, 0), (7964, 7956, 0, 0), (7965, 7957, 0, 0), (7976, 7968, 0, 0), (7977, 7969, 0, 0),
  (7978, 7970, 0, 0), (7979, 7971, 0, 0), (7980, 7972, 0, 0), (7981, 7973, 0, 0), (7982, 7974, 0, 0),
  (7983, 7975, 0, 0), (7992, 7984, 0, 0), (7993, 7985, 0, 0), (7994, 7986, 0, 0), (7995, 7987, 0, 0),
  (7996, 7988, 0, 0), (7997, 7989, 0, 0), (7998, 7990, 0, 0), (7999, 7991, 0, 0), (8008, 8000, 0, 0),
  (8009, 8001, 0, 0), (8010, 8002, 0, 0), (8011, 8003, 0, 0), (8012, 8004, 0, 0), (8013, 8005, 0, 0),
  (8025, 8017, 0, 0), (8027, 8019, 0, 0), (8029, 8021, 0, 0), (8031, 8023, 0, 0), (8040, 8032, 0, 0),
  (8041, 8033, 0, 0), (8042, 8034, 0, 0), (8043, 8035, 0, 0), (8044, 8036, 0, 0), (8045, 8037, 0, 0),
  (8046, 8038, 0, 0), (8047, 8039, 0, 0), (8072, 8064, 0, 0), (8073, 8065, 0, 0), (8074, 8066, 0, 0),
  (8075, 8067, 0, 0), (8076, 8068, 0, 0), (8077, 8069, 0, 0), (8078, 8070, 0, 0), (8079, 8071, 0, 0),
  (8088, 8080, 0, 0), (8089, 8081, 0, 0), (8090, 8082, 0, 0), (8091, 8083, 0, 0), (8092, 8084, 0, 0)]

def lowercaseTable4 : List (Nat × Nat × Nat × Nat) := [
  (8093, 8085, 0, 0), (8094, 8086, 0, 0), (8095, 8087, 0, 0), (8104, 8096, 0, 0), (8105, 8097, 0, 0),
  (8106, 8098, 0, 0), (8107, 8099, 0, 0), (8108, 8100, 0, 0), (8109, 8101, 0, 0), (8110, 8102, 0, 0),
  (8111, 8103, 0, 0), (8120, 8112, 0, 0), (8121, 8113, 0, 0), (8122, 8048, 0, 0), (8123, 8049, 0, 0),
  (8124, 8115, 0, 0), (8136, 8050, 0, 0), (8137, 8051, 0, 0), (8138, 8052, 0, 0), (8139, 8053, 0, 0),
  (8140, 8131, 0, 0), (8152, 8144, 0, 0), (8153, 8145, 0, 0), (8154, 8054, 0, 0), (8155, 8055, 0, 0),
  (8168, 8160, 0, 0), (8169, 8161, 0, 0), (8170, 8058, 0, 0), (8171, 8059, 0, 0), (8172, 8165, 0, 0),
  (8184, 8056, 0, 0), (8185, 8057, 0, 0), (8186, 8060, 0, 0), (8187, 8061, 0, 0), (8188, 8179, 0, 0),
  (8486, 969, 0, 0), (8490, 107, 0, 0), (8491, 229, 0, 0), (8498, 8526, 0, 0), (8544, 8560, 0, 0),
  (8545, 8561, 0, 0), (8546, 8562, 0, 0), (8547, 8563, 0, 0), (8548, 8564, 0, 0), (8549, 8565, 0, 0),
  (8550, 8566, 0, 0), (8551, 8567, 0, 0), (8552, 8568, 0, 0), (8553, 8569, 0, 0), (8554, 8570, 0, 0),
  (8555, 8571, 0, 0), (8556, 8572, 0, 0), (8557, 8573, 0, 0), (8558, 8574, 0, 0), (8559, 8575, 0, 0),
  (8579, 8580, 0, 0), (9398, 9424, 0, 0), (9399, 9425, 0, 0), (9400, 9426, 0, 0), (9401, 9427, 0, 0),
  (9402, 9428, 0, 0), (9403, 9429, 0, 0), (9404, 9430, 0, 0), (9405, 9431, 0, 0), (9406, 9432, 0, 0),
  (9407, 9433, 0, 0), (9408, 9434, 0, 0), (9409, 9435, 0, 0), (9410, 9436, 0, 0), (9411, 9437, 0, 0),
  (9412, 9438, 0, 0), (9413, 9439, 0, 0), (9414, 9440, 0, 0), (9415, 9441, 0, 0), (9416, 9442, 0, 0),
  (9417, 9443, 0, 0), (9418, 9444, 0, 0), (9419, 9445, 0, 0), (9420, 9446, 0, 0), (9421, 9447, 0, 0),
  (9422, 9448, 0, 0), (9423, 9449, 0, 0), (11264, 11312, 0, 0), (11265, 11313, 0, 0), (11266, 11314, 0, 0),
  (11267, 11315, 0, 0), (11268, 11316, 0, 0), (11269, 11317, 0, 0), (11270, 11318, 0, 0), (11271, 11319, 0, 0),
  (11272, 11320, 0, 0), (11273, 11321, 0, 0), (11274, 11322, 0, 0), (11275, 11323, 0, 0), (11276, 11324, 0, 0),
  (11277, 11325, 0, 0), (11278, 11326, 0, 0), (11279, 11327, 0, 0), (11280, 11328, 0, 0), (11281, 11329, 0, 0),
  (11282, 11330, 0, 0), (11283, 11331, 0, 0), (11284, 11332, 0, 0), (11285, 11333, 0, 0), (11286, 11334, 0, 0),
  (11287, 11335, 0, 0), (11288, 11336, 0, 0), (11289, 11337, 0, 0), (11290, 11338, 0, 0), (11291, 11339, 0, 0),
  (11292, 11340, 0, 0), (11293, 11341, 0, 0), (11294, 11342, 0, 0), (11295, 11343, 0, 0), (11296, 11344, 0, 0),
  (11297, 11345, 0, 0), (11298, 11346, 0, 0), (11299, 11347, 0, 0), (11300, 11348, 0, 0), (11301, 11349, 0, 0),
  (11302, 11350, 0, 0), (11303, 11351, 0, 0), (11304, 11352, 0, 0), (11305, 11353, 0, 0), (11306, 11354, 0, 0),
  (11307, 11355, 0, 0), (11308, 11356, 0, 0), (11309, 11357, 0, 0), (11310, 11358, 0, 0), (11311, 11359, 0, 0),
  (11360, 11361, 0, 0), (11362, 619, 0, 0), (11363, 7549, 0, 0), (11364, 637, 0, 0), (11367, 11368, 0, 0),
  (11369, 11370, 0, 0), (11371, 11372, 0, 0), (11373, 593, 0, 0), (11374, 625, 0, 0), (11375, 592, 0, 0),
  (11376, 594, 0, 0), (11378, 11379, 0, 0), (11381, 11382, 0, 0), (11390, 575, 0, 0), (11391, 576, 0, 0),
  (11392, 11393, 0, 0), (11394, 11395, 0, 0), (11396, 11397, 0, 0), (11398, 11399, 0, 0), (11400, 11401, 0, 0),
  (11402, 11403, 0, 0), (11404, 11405, 0, 0), (11406, 11407, 0, 0), (11408, 11409, 0, 0), (11410, 11411, 0, 0),
  (11412, 11413, 0, 0), (11414, 11415, 0, 0), (11416, 11417, 0, 0), (11418, 11419, 0, 0), (11420, 11421, 0, 0),
  (11422, 11423, 0, 0), (11424, 11425, 0, 0), (11426, 11427, 0, 0), (11428, 11429, 0, 0), (11430, 11431, 0, 0),
  (11432, 11433, 0, 0), (11434, 11435, 0, 0), (11436, 11437, 0, 0), (11438, 11439, 0, 0), (11440, 11441, 0, 0),
  (11442, 11443, 0, 0), (11444, 11445, 0, 0), (11446, 11447, 0, 0), (11448, 11449, 0, 0), (11450, 11451, 0, 0),
  (11452, 11453, 0, 0), (11454, 11455, 0, 0), (11456, 11457, 0, 0), (11458, 11459, 0, 0), (11460, 11461, 0, 0),
  (11462, 11463, 0, 0), (11464, 11465, 0, 0), (11466, 11467, 0, 0), (11468, 11469, 0, 0), (11470, 11471, 0, 0),
  (11472, 11473, 0, 0), (11474, 11475, 0, 0), (11476, 11477, 0, 0), (11478, 11479, 0, 0), (11480, 11481, 0, 0),
  (11482, 11483, 0, 0), (11484, 11485, 0, 0), (11486, 11487, 0, 0), (11488, 11489, 0, 0), (11490, 11491, 0, 0),
  (11499, 11500, 0, 0), (11501, 11502, 0, 0), (11506, 11507, 0, 0), (42560, 42561, 0, 0), (42562, 42563, 0, 0)]

def lowercaseTable5 : List (Nat × Nat × Nat × Nat) := [
  (42564, 42565, 0, 0), (42566, 42567, 0, 0), (42568, 42569, 0, 0), (42570, 42571, 0, 0), (42572, 42573, 0, 0),
  (42574, 42575, 0, 0), (42576, 42577, 0, 0), (42578, 42579, 0, 0), (42580, 42581, 0, 0), (42582, 42583, 0, 0),
  (42584, 42585, 0, 0), (42586, 42587, 0, 0), (42588, 42589, 0, 0), (42590, 42591, 0, 0), (42592, 42593, 0, 0),
  (42594, 42595, 0, 0), (42596, 42597, 0, 0), (42598, 42599, 0, 0), (42600, 42601, 0, 0), (42602, 42603, 0, 0),
  (42604, 42605, 0, 0), (42624, 42625, 0, 0), (42626, 42627, 0, 0), (42628, 42629, 0, 0), (42630, 42631, 0, 0),
  (42632, 42633, 0, 0), (42634, 42635, 0, 0), (42636, 42637, 0, 0), (42638, 42639, 0, 0), (42640, 42641, 0, 0),
  (42642, 42643, 0, 0), (42644, 42645, 0, 0), (42646, 42647, 0, 0), (42648, 42649, 0, 0), (42650, 42651, 0, 0),
  (42786, 42787, 0, 0), (42788, 42789, 0, 0), (42790, 42791, 0, 0), (42792, 42793, 0, 0), (42794, 42795, 0, 0),
  (42796, 42797, 0, 0), (42798, 42799, 0, 0), (42802, 42803, 0, 0), (42804, 42805, 0, 0), (42806, 42807, 0, 0),
  (42808, 42809, 0, 0), (42810, 42811, 0, 0), (42812, 42813, 0, 0), (42814, 42815, 0, 0), (42816, 42817, 0, 0),
  (42818, 42819, 0, 0), (42820, 42821, 0, 0), (42822, 42823, 0, 0), (42824, 42825, 0, 0), (42826, 42827, 0, 0),
  (42828, 42829, 0, 0), (42830, 42831, 0, 0), (42832, 42833, 0, 0), (42834, 42835, 0, 0), (42836, 42837, 0, 0),
  (42838, 42839, 0, 0), (42840, 42841, 0, 0), (42842, 42843, 0, 0), (42844, 42845, 0, 0), (42846, 42847, 0, 0),
  (42848, 42849, 0, 0), (42850, 42851, 0, 0), (42852, 42853, 0, 0), (42854, 42855, 0, 0), (42856, 42857, 0, 0),
  (42858, 42859, 0, 0), (42860, 42861, 0, 0), (42862, 42863, 0, 0), (42873, 42874, 0, 0), (42875, 42876, 0, 0),
  (42877, 7545, 0, 0), (42878, 42879, 0, 0), (42880, 42881, 0, 0), (42882, 42883, 0, 0), (42884, 42885, 0, 0),
  (42886, 42887, 0, 0), (42891, 42892, 0, 0), (42893, 613, 0, 0), (42896, 42897, 0, 0), (42898, 42899, 0, 0),
  (42902, 42903, 0, 0), (42904, 42905, 0, 0), (42906, 42907, 0, 0), (42908, 42909, 0, 0), (42910, 42911, 0, 0),
  (42912, 42913, 0, 0), (42914, 42915, 0, 0), (42916, 42917, 0, 0), (42918, 42919, 0, 0), (42920, 42921, 0, 0),
  (42922, 614, 0, 0), (42923, 604, 0, 0), (42924, 609, 0, 0), (42925, 620, 0, 0), (42926, 618, 0, 0),
  (42928, 670, 0, 0), (42929, 647, 0, 0), (42930, 669, 0, 0), (42931, 43859, 0, 0), (42932, 42933, 0, 0),
  (42934, 42935, 0, 0), (42936, 42937, 0, 0), (42938, 42939, 0, 0), (42940, 42941, 0, 0), (42942, 42943, 0, 0),
  (42944, 42945, 0, 0), (42946, 42947, 0, 0), (42948, 42900, 0, 0), (42949, 642, 0, 0), (42950, 7566, 0, 0),
  (42951, 42952, 0, 0), (42953, 42954, 0, 0), (42960, 42961, 0, 0), (42966, 42967, 0, 0), (42968, 42969, 0, 0),
  (42997, 42998, 0, 0), (65313, 65345, 0, 0), (65314, 65346, 0, 0), (65315, 65347, 0, 0), (65316, 65348, 0, 0),
  (65317, 65349, 0, 0), (65318, 65350, 0, 0), (65319, 65351, 0, 0), (65320, 65352, 0, 0), (65321, 65353, 0, 0),
  (65322, 65354, 0, 0), (65323, 65355, 0, 0), (65324, 65356, 0, 0), (65325, 65357, 0, 0), (65326, 65358, 0, 0),
  (65327, 65359, 0, 0), (65328, 65360, 0, 0), (65329, 65361, 0, 0), (65330, 65362, 0, 0), (65331, 65363, 0, 0),
  (65332, 65364, 0, 0), (65333, 65365, 0, 0), (65334, 65366, 0, 0), (65335, 65367, 0, 0), (65336, 65368, 0, 0),
  (65337, 65369, 0, 0), (65338, 65370, 0, 0), (66560, 66600, 0, 0), (66561, 66601, 0, 0), (66562, 66602, 0, 0),
  (66563, 66603, 0, 0), (66564, 66604, 0, 0), (66565, 66605, 0, 0), (66566, 66606, 0, 0), (66567, 66607, 0, 0),
  (66568, 66608, 0, 0), (66569, 66609, 0, 0), (66570, 66610, 0, 0), (66571, 66611, 0, 0), (66572, 66612, 0, 0),
  (66573, 66613, 0, 0), (66574, 66614, 0, 0), (66575, 66615, 0, 0), (66576, 66616, 0, 0), (66577, 66617, 0, 0),
  (66578, 66618, 0, 0), (66579, 66619, 0, 0), (66580, 66620, 0, 0), (66581, 66621, 0, 0), (66582, 66622, 0, 0),
  (66583, 66623, 0, 0), (66584, 66624, 0, 0), (66585, 66625, 0, 0), (66586, 66626, 0, 0), (66587, 66627, 0, 0),
  (66588, 66628, 0, 0), (66589, 66629, 0, 0), (66590, 66630, 0, 0), (66591, 66631, 0, 0), (66592, 66632, 0, 0),
  (66593, 66633, 0, 0), (66594, 66634, 0, 0), (66595, 66635, 0, 0), (66596, 66636, 0, 0), (66597, 66637, 0, 0),
  (66598, 66638, 0, 0), (66599, 66639, 0, 0), (66736, 66776, 0, 0), (66737, 66777, 0, 0), (66738, 66778, 0, 0),
  (66739, 66779, 0, 0), (66740, 66780, 0, 0), (66741, 66781, 0, 0), (66742, 66782, 0, 0), (66743, 66783, 0, 0),
  (66744, 66784, 0, 0), (66745, 66785, 0, 0), (66746, 66786, 0, 0), (66747, 66787, 0, 0), (66748, 66788, 0, 0)]

def lowercaseTable6 : List (Nat × Nat × Nat × Nat) := [
  (66749, 66789, 0, 0), (66750, 66790, 0, 0), (66751, 66791, 0, 0), (66752, 66792, 0, 0), (66753, 66793, 0, 0),
  (66754, 66794, 0, 0), (66755, 66795, 0, 0), (66756, 66796, 0, 0), (66757, 66797, 0, 0), (66758, 66798, 0, 0),
  (66759, 66799, 0, 0), (66760, 66800, 0, 0), (66761, 66801, 0, 0), (66762, 66802, 0, 0), (66763, 66803, 0, 0),
  (66764, 66804, 0, 0), (66765, 66805, 0, 0), (66766, 66806, 0, 0), (66767, 66807, 0, 0), (66768, 66808, 0, 0),
  (66769, 66809, 0, 0), (66770, 66810, 0, 0), (66771, 66811, 0, 0), (66928, 66967, 0, 0), (66929, 66968, 0, 0),
  (66930, 66969, 0, 0), (66931, 66970, 0, 0), (66932, 66971, 0, 0), (66933, 66972, 0, 0), (66934, 66973, 0, 0),
  (66935, 66974, 0, 0), (66936, 66975, 0, 0), (66937, 66976, 0, 0), (66938, 66977, 0, 0), (66940, 66979, 0, 0),
  (66941, 66980, 0, 0), (66942, 66981, 0, 0), (66943, 66982, 0, 0), (66944, 66983, 0, 0), (66945, 66984, 0, 0),
  (66946, 66985, 0, 0), (66947, 66986, 0, 0), (66948, 66987, 0, 0), (66949, 66988, 0, 0), (66950, 66989, 0, 0),
  (66951, 66990, 0, 0), (66952, 66991, 0, 0), (66953, 66992, 0, 0), (66954, 66993, 0, 0), (66956, 66995, 0, 0),
  (66957, 66996, 0, 0), (66958, 66997, 0, 0), (66959, 66998, 0, 0), (66960, 66999, 0, 0), (66961, 67000, 0, 0),
  (66962, 67001, 0, 0), (66964, 67003, 0, 0), (66965, 67004, 0, 0), (68736, 68800, 0, 0), (68737, 68801, 0, 0),
  (68738, 68802, 0, 0), (68739, 68803, 0, 0), (68740, 68804, 0, 0), (68741, 68805, 0, 0), (68742, 68806, 0, 0),
  (68743, 68807, 0, 0), (68744, 68808, 0, 0), (68745, 68809, 0, 0), (68746, 68810, 0, 0), (68747, 68811, 0, 0),
  (68748, 68812, 0, 0), (68749, 68813, 0, 0), (68750, 68814, 0, 0), (68751, 68815, 0, 0), (68752, 68816, 0, 0),
  (68753, 68817, 0, 0), (68754, 68818, 0, 0), (68755, 68819, 0, 0), (68756, 68820, 0, 0), (68757, 68821, 0, 0),
  (68758, 68822, 0, 0), (68759, 68823, 0, 0), (68760, 68824, 0, 0), (68761, 68825, 0, 0), (68762, 68826, 0, 0),
  (68763, 68827, 0, 0), (68764, 68828, 0, 0), (68765, 68829, 0, 0), (68766, 68830, 0, 0), (68767, 68831, 0, 0),
  (68768, 68832, 0, 0), (68769, 68833, 0, 0), (68770, 68834, 0, 0), (68771, 68835, 0, 0), (68772, 68836, 0, 0),
  (68773, 68837, 0, 0), (68774, 68838, 0, 0), (68775, 68839, 0, 0), (68776, 68840, 0, 0), (68777, 68841, 0, 0),
  (68778, 68842, 0, 0), (68779, 68843, 0, 0), (68780, 68844, 0, 0), (68781, 68845, 0, 0), (68782, 68846, 0, 0),
  (68783, 68847, 0, 0), (68784, 68848, 0, 0), (68785, 68849, 0, 0), (68786, 68850, 0, 0), (71840, 71872, 0, 0),
  (71841, 71873, 0, 0), (71842, 71874, 0, 0), (71843, 71875, 0, 0), (71844, 71876, 0, 0), (71845, 71877, 0, 0),
  (71846, 71878, 0, 0), (71847, 71879, 0, 0), (71848, 71880, 0, 0), (71849, 71881, 0, 0), (71850, 71882, 0, 0),
  (71851, 71883, 0, 0), (71852, 71884, 0, 0), (71853, 71885, 0, 0), (71854, 71886, 0, 0), (71855, 71887, 0, 0),
  (71856, 71888, 0, 0), (71857, 71889, 0, 0), (71858, 71890, 0, 0), (71859, 71891, 0, 0), (71860, 71892, 0, 0),
  (71861, 71893, 0, 0), (71862, 71894, 0, 0), (71863, 71895, 0, 0), (71864, 71896, 0, 0), (71865, 71897, 0, 0),
  (71866, 71898, 0, 0), (71867, 71899, 0, 0), (71868, 71900, 0, 0), (71869, 71901, 0, 0), (71870, 71902, 0, 0),
  (71871, 71903, 0, 0), (93760, 93792, 0, 0), (93761, 93793, 0, 0), (93762, 93794, 0, 0), (93763, 93795, 0, 0),
  (93764, 93796, 0, 0), (93765, 93797, 0, 0), (93766, 93798, 0, 0), (93767, 93799, 0, 0), (93768, 93800, 0, 0),
  (93769, 93801, 0, 0), (93770, 93802, 0, 0), (93771, 93803, 0, 0), (93772, 93804, 0, 0), (93773, 93805, 0, 0),
  (93774, 93806, 0, 0), (93775, 93807, 0, 0), (93776, 93808, 0, 0), (93777, 93809, 0, 0), (93778, 93810, 0, 0),
  (93779, 93811, 0, 0), (93780, 93812, 0, 0), (93781, 93813, 0, 0), (93782, 93814, 0, 0), (93783, 93815, 0, 0),
  (93784, 93816, 0, 0), (93785, 93817, 0, 0), (93786, 93818, 0, 0), (93787, 93819, 0, 0), (93788, 93820, 0, 0),
  (93789, 93821, 0, 0), (93790, 93822, 0, 0), (93791, 93823, 0, 0), (125184, 125218, 0, 0), (125185, 125219, 0, 0),
  (125186, 125220, 0, 0), (125187, 125221, 0, 0), (125188, 125222, 0, 0), (125189, 125223, 0, 0), (125190, 125224, 0, 0),
  (125191, 125225, 0, 0), (125192, 125226, 0, 0), (125193, 125227, 0, 0), (125194, 125228, 0, 0), (125195, 125229, 0, 0),
  (125196, 125230, 0, 0), (125197, 125231, 0, 0), (125198, 125232, 0, 0), (125199, 125233, 0, 0), (125200, 125234, 0, 0),
  (125201, 125235, 0, 0), (125202, 125236, 0, 0), (125203, 125237, 0, 0), (125204, 125238, 0, 0), (125205, 125239, 0, 0),
  (125206, 125240, 0, 0), (125207, 125241, 0, 0), (125208, 125242, 0, 0), (125209, 125243, 0, 0), (125210, 125244, 0, 0)]

def lowercaseTable7 : List (Nat × Nat × Nat × Nat) := [
  (125211, 125245, 0, 0), (125212, 125246, 0, 0), (125213, 125247, 0, 0), (125214, 125248, 0, 0), (125215, 125249, 0, 0),
  (125216, 125250, 0, 0), (125217, 125251, 0, 0)]

def lowercaseTable : List (Nat × Nat × Nat × Nat) :=
  lowercaseTable0 ++ lowercaseTable1 ++ lowercaseTable2 ++ lowercaseTable3 ++ lowercaseTable4 ++ lowercaseTable5 ++ lowercaseTable6 ++ lowercaseTable7

/-- The Unicode Cased property restricted to characters that are not
Case_Ignorable, as inclusive codepoint ranges.  Rust's final-sigma rule
consults `Cased` only on the first non-`Case_Ignorable` character, so this
restriction is the exact set the algorithm can observe. -/
def casedNonIgnorableRanges : List (Nat × Nat) := [
  (65, 90), (97, 122), (170, 170), (181, 181), (186, 186), (192, 214), (216, 246), (248, 442),
  (444, 447), (452, 659), (661, 687), (880, 883), (886, 887), (891, 893), (895, 895), (902, 902),
  (904, 906), (908, 908), (910, 929), (931, 1013), (1015, 1153), (1162, 1327), (1329, 1366), (1376, 1416),
  (4256, 4293), (4295, 4295), (4301, 4301), (4304, 4346), (4349, 4351), (5024, 5109), (5112, 5117), (7296, 7304),
  (7312, 7354), (7357, 7359), (7424, 7467), (7531, 7543), (7545, 7578), (7680, 7957), (7960, 7965), (7968, 8005),
  (8008, 8013), (8016, 8023), (8025, 8025), (8027, 8027), (8029, 8029), (8031, 8061), (8064, 8116), (8118, 8124),
  (8126, 8126), (8130, 8132), (8134, 8140), (8144, 8147), (8150, 8155), (8160, 8172), (8178, 8180), (8182, 8188),
  (8450, 8450), (8455, 8455), (8458, 8467), (8469, 8469), (8473, 8477), (8484, 8484), (8486, 8486), (8488, 8488),
  (8490, 8493), (8495, 8500), (8505, 8505), (8508, 8511), (8517, 8521), (8526, 8526), (8544, 8575), (8579, 8580),
  (9398, 9449), (11264, 11387), (11390, 11492), (11499, 11502), (11506, 11507), (11520, 11557), (11559, 11559), (11565, 11565),
  (42560, 42605), (42624, 42651), (42786, 42863), (42865, 42887), (42891, 42894), (42896, 42954), (42960, 42961), (42963, 42963),
  (42965, 42969), (42997, 42998), (43002, 43002), (43824, 43866), (43872, 43880), (43888, 43967), (64256, 64262), (64275, 64279),
  (65313, 65338), (65345, 65370), (66560, 66639), (66736, 66771), (66776, 66811), (66928, 66938), (66940, 66954), (66956, 66962),
  (66964, 66965), (66967, 66977), (66979, 66993), (66995, 67001), (67003, 67004), (68736, 68786), (68800, 68850), (71840, 71903),
  (93760, 93823), (119808, 119892), (119894, 119964), (119966, 119967), (119970, 119970), (119973, 119974), (119977, 119980), (119982, 119993),
  (119995, 119995), (119997, 120003), (120005, 120069), (120071, 120074), (120077, 120084), (120086, 120092), (120094, 120121), (120123, 120126),
  (120128, 120132), (120134, 120134), (120138, 120144), (120146, 120485), (120488, 120512), (120514, 120538), (120540, 120570), (120572, 120596),
  (120598, 120628), (120630, 120654), (120656, 120686), (120688, 120712), (120714, 120744), (120746, 120770), (120772, 120779), (122624, 122633),
  (122635, 122654), (125184, 125251), (127280, 127305), (127312, 127337), (127344, 127369)]

/-- The Unicode Case_Ignorable property, as inclusive codepoint ranges. -/
def caseIgnorableRanges : List (Nat × Nat) := [
  (39, 39), (46, 46), (58, 58), (94, 94), (96, 96), (168, 168), (173, 173), (175, 175),
  (180, 180), (183, 184), (688, 879), (884, 885), (890, 890), (900, 901), (903, 903), (1155, 1161),
  (1369, 1369), (1375, 1375), (1425, 1469), (1471, 1471), (1473, 1474), (1476, 1477), (1479, 1479), (1524, 1524),
  (1536, 1541), (1552, 1562), (1564, 1564), (1600, 1600), (1611, 1631), (1648, 1648), (1750, 1757), (1759, 1768),
  (1770, 1773), (1807, 1807), (1809, 1809), (1840, 1866), (1958, 1968), (2027, 2037), (2042, 2042), (2045, 2045),
  (2070, 2093), (2137, 2139), (2184, 2184), (2192, 2193), (2200, 2207), (2249, 2306), (2362, 2362), (2364, 2364),
  (2369, 2376), (2381, 2381), (2385, 2391), (2402, 2403), (2417, 2417), (2433, 2433), (2492, 2492), (2497, 2500),
  (2509, 2509), (2530, 2531), (2558, 2558), (2561, 2562), (2620, 2620), (2625, 2626), (2631, 2632), (2635, 2637),
  (2641, 2641), (2672, 2673), (2677, 2677), (2689, 2690), (2748, 2748), (2753, 2757), (2759, 2760), (2765, 2765),
  (2786, 2787), (2810, 2815), (2817, 2817), (2876, 2876), (2879, 2879), (2881, 2884), (2893, 2893), (2901, 2902),
  (2914, 2915), (2946, 2946), (3008, 3008), (3021, 3021), (3072, 3072), (3076, 3076), (3132, 3132), (3134, 3136),
  (3142, 3144), (3146, 3149), (3157, 3158), (3170, 3171), (3201, 3201), (3260, 3260), (3263, 3263), (3270, 3270),
  (3276, 3277), (3298, 3299), (3328, 3329), (3387, 3388), (3393, 3396), (3405, 3405), (3426, 3427), (3457, 3457),
  (3530, 3530), (3538, 3540), (3542, 3542), (3633, 3633), (3636, 3642), (3654, 3662), (3761, 3761), (3764, 3772),
  (3782, 3782), (3784, 3789), (3864, 3865), (3893, 3893), (3895, 3895), (3897, 3897), (3953, 3966), (3968, 3972),
  (3974, 3975), (3981, 3991), (3993, 4028), (4038, 4038), (4141, 4144), (4146, 4151), (4153, 4154), (4157, 4158),
  (4184, 4185), (4190, 4192), (4209, 4212), (4226, 4226), (4229, 4230), (4237, 4237), (4253, 4253), (4348, 4348),
  (4957, 4959), (5906, 5908), (5938, 5939), (5970, 5971), (6002, 6003), (6068, 6069), (6071, 6077), (6086, 6086),
  (6089, 6099), (6103, 6103), (6109, 6109), (6155, 6159), (6211, 6211), (6277, 6278), (6313, 6313), (6432, 6434),
  (6439, 6440), (6450, 6450), (6457, 6459), (6679, 6680), (6683, 6683), (6742, 6742), (6744, 6750), (6752, 6752),
  (6754, 6754), (6757, 6764), (6771, 6780), (6783, 6783), (6823, 6823), (6832, 6862), (6912, 6915), (6964, 6964),
  (6966, 6970), (6972, 6972), (6978, 6978), (7019, 7027), (7040, 7041), (7074, 7077), (7080, 7081), (7083, 7085),
  (7142, 7142), (7144, 7145), (7149, 7149), (7151, 7153), (7212, 7219), (7222, 7223), (7288, 7293), (7376, 7378),
  (7380, 7392), (7394, 7400), (7405, 7405), (7412, 7412), (7416, 7417), (7468, 7530), (7544, 7544), (7579, 7679),
  (8125, 8125), (8127, 8129), (8141, 8143), (8157, 8159), (8173, 8175), (8189, 8190), (8203, 8207), (8216, 8217),
  (8228, 8228), (8231, 8231), (8234, 8238), (8288, 8292), (8294, 8303), (8305, 8305), (8319, 8319), (8336, 8348),
  (8400, 8432), (11388, 11389), (11503, 11505), (11631, 11631), (11647, 11647), (11744, 11775), (11823, 11823), (12293, 12293),
  (12330, 12333), (12337, 12341), (12347, 12347), (12441, 12446), (12540, 12542), (40981, 40981), (42232, 42237), (42508, 42508),
  (42607, 42610), (42612, 42621), (42623, 42623), (42652, 42655), (42736, 42737), (42752, 42785), (42864, 42864), (42888, 42890),
  (42994, 42996), (43000, 43001), (43010, 43010), (43014, 43014), (43019, 43019), (43045, 43046), (43052, 43052), (43204, 43205),
  (43232, 43249), (43263, 43263), (43302, 43309), (43335, 43345), (43392, 43394), (43443, 43443), (43446, 43449), (43452, 43453),
  (43471, 43471), (43493, 43494), (43561, 43566), (43569, 43570), (43573, 43574), (43587, 43587), (43596, 43596), (43632, 43632),
  (43644, 43644), (43696, 43696), (43698, 43700), (43703, 43704), (43710, 43711), (43713, 43713), (43741, 43741), (43756, 43757),
  (43763, 43764), (43766, 43766), (43867, 43871), (43881, 43883), (44005, 44005), (44008, 44008), (44013, 44013), (64286, 64286),
  (64434, 64450), (65024, 65039), (65043, 65043), (65056, 65071), (65106, 65106), (65109, 65109), (65279, 65279), (65287, 65287),
  (65294, 65294), (65306, 65306), (65342, 65342), (65344, 65344), (65392, 65392), (65438, 65439), (65507, 65507), (65529, 65531),
  (66045, 66045), (66272, 66272), (66422, 66426), (67456, 67461), (67463, 67504), (67506, 67514), (68097, 68099), (68101, 68102),
  (68108, 68111), (68152, 68154), (68159, 68159), (68325, 68326), (68900, 68903), (69291, 69292), (69446, 69456), (69506, 69509),
  (69633, 69633), (69688, 69702), (69744, 69744), (69747, 69748), (69759, 69761), (69811, 69814), (69817, 69818), (69821, 69821),
  (69826, 69826), (69837, 69837), (69888, 69890), (69927, 69931), (69933, 69940), (70003, 70003), (70016, 70017), (70070, 70078),
  (70089, 70092), (70095, 70095), (70191, 70193), (70196, 70196), (70198, 70199), (70206, 70206), (70367, 70367), (70371, 70378),
  (70400, 70401), (70459, 70460), (70464, 70464), (70502, 70508), (70512, 70516), (70712, 70719), (70722, 70724), (70726, 70726),
  (70750, 70750), (70835, 70840), (70842, 70842), (70847, 70848), (70850, 70851), (71090, 71093), (71100, 71101), (71103, 71104),
  (71132, 71133), (71219, 71226), (71229, 71229), (71231, 71232), (71339, 71339), (71341, 71341), (71344, 71349), (71351, 71351),
  (71453, 71455), (71458, 71461), (71463, 71467), (71727, 71735), (71737, 71738), (71995, 71996), (71998, 71998), (72003, 72003),
  (72148, 72151), (72154, 72155), (72160, 72160), (72193, 72202), (72243, 72248), (72251, 72254), (72263, 72263), (72273, 72278),
  (72281, 72283), (72330, 72342), (72344, 72345), (72752, 72758), (72760, 72765), (72767, 72767), (72850, 72871), (72874, 72880),
  (72882, 72883), (72885, 72886), (73009, 73014), (73018, 73018), (73020, 73021), (73023, 73029), (73031, 73031), (73104, 73105),
  (73109, 73109), (73111, 73111), (73459, 73460), (78896, 78904), (92912, 92916), (92976, 92982), (92992, 92995), (94031, 94031),
  (94095, 94111), (94176, 94177), (94179, 94180), (110576, 110579), (110581, 110587), (110589, 110590), (113821, 113822), (113824, 113827),
  (118528, 118573), (118576, 118598), (119143, 119145), (119155, 119170), (119173, 119179), (119210, 119213), (119362, 119364), (121344, 121398),
  (121403, 121452), (121461, 121461), (121476, 121476), (121499, 121503), (121505, 121519), (122880, 122886), (122888, 122904), (122907, 122913),
  (122915, 122916), (122918, 122922), (123184, 123197), (123566, 123566), (123628, 123631), (125136, 125142), (125252, 125259), (127995, 127999),
  (917505, 917505), (917536, 917631), (917760, 917999)]

/-- Membership of a codepoint in a list of inclusive ranges. -/
def inRanges (rs : List (Nat × Nat)) (n : Nat) : Bool :=
  rs.any (fun r => r.1 ≤ n && n ≤ r.2)

/-- The Unicode Case_Ignorable property (`core::unicode::Case_Ignorable`). -/
def isCaseIgnorable (c : Char) : Bool := inRanges caseIgnorableRanges c.toNat

/-- The Unicode Cased property (`core::unicode::Cased`) on the
non-Case_Ignorable characters, the only ones whose `Cased` value the
final-sigma rule reads. -/
def isCasedNonIgnorable (c : Char) : Bool :=
  inRanges casedNonIgnorableRanges c.toNat

/-- GREEK CAPITAL LETTER SIGMA. -/
def sigmaUpper : Char := Char.ofNat 931

/-- GREEK SMALL LETTER FINAL SIGMA. -/
def sigmaFinal : Char := Char.ofNat 962

/-- GREEK SMALL LETTER SIGMA. -/
def sigmaSmall : Char := Char.ofNat 963

/-- Rust `char::to_lowercase` (`conversions::to_lower`): ASCII fast path,
otherwise the conversion table (its binary search modelled as a linear
lookup), identity when unmapped. -/
def toLowerChar (c : Char) : List Char :=
  if c.toNat < 128 then
    [if 65 ≤ c.toNat && c.toNat ≤ 90 then Char.ofNat (c.toNat + 32) else c]
  else
    match lowercaseTable.find? (fun e => e.1 = c.toNat) with
    | none => [c]
    | some e =>
      Char.ofNat e.2.1 ::
        (if e.2.2.1 = 0 then []
         else Char.ofNat e.2.2.1 ::
           (if e.2.2.2 = 0 then [] else [Char.ofNat e.2.2.2]))

/-- Rust `case_ignorable_then_cased` from `alloc::str`: skip the
Case_Ignorable characters and test whether the next one is Cased. -/
def caseIgnorableThenCased (l : List Char) : Bool :=
  match l.dropWhile isCaseIgnorable with
  | [] => false
  | c :: _ => isCasedNonIgnorable c

/-- The character loop of Rust `str::to_lowercase`: `before` holds the
already-consumed characters in reverse (the `from[..i].chars().rev()` of
`map_uppercase_sigma`), `rest` the characters still to process.  A capital
sigma becomes final sigma exactly at a word end; every other character
maps through `char::to_lowercase`. -/
def toLowercaseAux : List Char → List Char → List Char
  | _, [] => []
  | before, c :: rest =>
    (if c = sigmaUpper then
      [if caseIgnorableThenCased before && !(caseIgnorableThenCased rest)
        then sigmaFinal else sigmaSmall]
     else toLowerChar c) ++ toLowercaseAux (c :: before) rest

/-- Rust `str::to_lowercase` on the character-list model. -/
def rustToLowercase (s : List Char) : List Char := toLowercaseAux [] s

/-- The per-statement keyword test of `try_from`: lowercase the first at
most ten characters and look for the first reserved keyword they start
with. -/
def firstKeyword (s : List Char) : Option (List Char) :=
  keywords.find? (fun k => k.isPrefixOf (rustToLowercase (s.take 10)))

/-- The error message built by `try_from` for a matched keyword. -/
def errMsg (k : List Char) : List Char :=
  k.map Char.toUpper ++ (" command is not supported in a revision").toList

/-- The rejection loop of `try_from`: the error for the first candidate
statement that starts with a reserved keyword, if any. -/
def checkAll : List (List Char) → Option (List Char)
  | [] => none
  | s :: rest =>
    match firstKeyword s with
    | some k => some (errMsg k)
    | none => checkAll rest

/-- `StatementGroup::try_from`: the full parse — comment filtering,
scanning, trimming and the keyword policy. -/
def StatementGroup.tryFrom (input : List Char) :
    Except (List Char) (List (List Char)) :=
  match checkAll (candidates input) with
  | some e => Except.error e
  | none => Except.ok (candidates input)

instance instDecidableEqExceptJ {ε α : Type} [DecidableEq ε] [DecidableEq α] :
    DecidableEq (Except ε α) := fun x y =>
  match x, y with
  | Except.error a, Except.error b =>
    if h : a = b then isTrue (by rw [h])
    else isFalse (fun hx => h (Except.error.inj hx))
  | Except.error _, Except.ok _ => isFalse (fun hx => Except.noConfusion hx)
  | Except.ok _, Except.error _ => isFalse (fun hx => Except.noConfusion hx)
  | Except.ok a, Except.ok b =>
    if h : a = b then isTrue (by rw [h])
    else isFalse (fun hx => h (Except.ok.inj hx))

/-- `noTopSemi p cs` asserts that scanning `cs` from state `p` never meets
a semicolon outside both quoting contexts. -/
def noTopSemi : Parser → List Char → Bool
  | _, [] => true
  | p, c :: cs =>
    (!(decide (c = ';') && !p.in_string && !p.in_delimited_identifier)) &&
      noTopSemi (p.accept c) cs

/-- Join a list of lines into a text in which every line is
newline-terminated. -/
def textOfLines (ls : List (List Char)) : List Char :=
  (ls.map (fun l => l ++ ['\n'])).flatten

/-- Rust `input.replace("\r\n", "\n")`: left-to-right, non-overlapping. -/
def replaceCRLF : List Char → List Char
  | [] => []
  | [c] => [c]
  | c1 :: c2 :: rest =>
    if c1 = '\r' ∧ c2 = '\n' then '\n' :: replaceCRLF rest
    else c1 :: replaceCRLF (c2 :: rest)

/-- Whether the text contains the three-character sequence CR CR LF. -/
def hasRRN : List Char → Bool
  | [] => false
  | [_] => false
  | [_, _] => false
  | c1 :: c2 :: c3 :: t =>
    if c1 = '\r' ∧ c2 = '\r' ∧ c3 = '\n' then true else hasRRN (c2 :: c3 :: t)

lemma updateFlags_statements (p : Parser) (c : Char) :
    (updateFlags p c).statements = p.statements := by
  simp only [updateFlags]
  split_ifs <;> rfl

lemma updateFlags_squote (p : Parser) (h : p.in_delimited_identifier = false) :
    updateFlags p squote = { p with in_string := !p.in_string } := by
  have hne := eq_false (show ¬(squote = dquote) by decide)
  simp [updateFlags, h, hne]

lemma updateFlags_squote_blocked (p : Parser)
    (h : p.in_delimited_identifier = true) : updateFlags p squote = p := by
  have hne := eq_false (show ¬(squote = dquote) by decide)
  simp [updateFlags, h, hne]

lemma updateFlags_dquote (p : Parser) (h : p.in_string = false) :
    updateFlags p dquote =
      { p with in_delimited_identifier := !p.in_delimited_identifier } := by
  have hne := eq_false (show ¬(dquote = squote) by decide)
  simp [updateFlags, h, hne]

lemma updateFlags_dquote_blocked (p : Parser) (h : p.in_string = true) :
    updateFlags p dquote = p := by
  have hne := eq_false (show ¬(dquote = squote) by decide)
  simp [updateFlags, h, hne]

lemma updateFlags_of_ne (p : Parser) (c : Char) (h1 : c ≠ squote)
    (h2 : c ≠ dquote) : updateFlags p c = p := by
  simp [updateFlags, h1, h2]

lemma updateFlags_semi (p : Parser) : updateFlags p ';' = p :=
  updateFlags_of_ne p ';' (by decide) (by decide)

lemma accept_in_string (p : Parser) (c : Char) :
    (p.accept c).in_string = (updateFlags p c).in_string := by
  simp only [Parser.accept]
  split
  · rfl
  · split <;> rfl

lemma accept_in_delim (p : Parser) (c : Char) :
    (p.accept c).in_delimited_identifier =
      (updateFlags p c).in_delimited_identifier := by
  simp only [Parser.accept]
  split
  · rfl
  · split <;> rfl

lemma lastMutPush_concat (c : Char) :
    ∀ (front : List (List Char)) (lastF : List Char),
      lastMutPush c (front ++ [lastF]) = some (front ++ [lastF ++ [c]])
  | [], _ => rfl
  | [_], _ => rfl
  | s1 :: s2 :: front, lastF => by
    have ih := lastMutPush_concat c (s2 :: front) lastF
    show (lastMutPush c ((s2 :: front) ++ [lastF])).map (fun r => s1 :: r) =
      some (s1 :: ((s2 :: front) ++ [lastF ++ [c]]))
    rw [ih]
    rfl

lemma lastMutPush_isSome (c : Char) (sts : List (List Char)) (h : sts ≠ []) :
    (lastMutPush c sts).isSome = true := by
  rcases List.eq_nil_or_concat sts with h0 | ⟨front, lastF, rfl⟩
  · exact absurd h0 h
  · rw [List.concat_eq_append, lastMutPush_concat]; rfl

lemma accept_top (p : Parser) (c : Char)
    (h : c = ';' ∧ (updateFlags p c).in_string = false ∧
      (updateFlags p c).in_delimited_identifier = false) :
    p.accept c = { updateFlags p c with statements := p.statements ++ [[]] } := by
  simp only [Parser.accept]
  rw [if_pos h, updateFlags_statements]

lemma accept_semi_top (p : Parser) (hs : p.in_string = false)
    (hd : p.in_delimited_identifier = false) :
    p.accept ';' = { p with statements := p.statements ++ [[]] } := by
  have h := accept_top p ';' (by rw [updateFlags_semi]; exact ⟨rfl, hs, hd⟩)
  rw [h, updateFlags_semi]

lemma accept_append_nil (p : Parser) (c : Char)
    (h : ¬(c = ';' ∧ (updateFlags p c).in_string = false ∧
      (updateFlags p c).in_delimited_identifier = false))
    (h0 : p.statements = []) :
    p.accept c = { updateFlags p c with statements := [[c]] } := by
  simp only [Parser.accept]
  rw [if_neg h, updateFlags_statements, h0]
  rfl

lemma accept_append_concat (p : Parser) (c : Char)
    (h : ¬(c = ';' ∧ (updateFlags p c).in_string = false ∧
      (updateFlags p c).in_delimited_identifier = false))
    (front : List (List Char)) (lastF : List Char)
    (h0 : p.statements = front ++ [lastF]) :
    p.accept c = { updateFlags p c with statements := front ++ [lastF ++ [c]] } := by
  simp only [Parser.accept]
  rw [if_neg h, updateFlags_statements, h0,
    if_neg (by cases front <;> simp :
      ¬((front ++ [lastF] : List (List Char)).isEmpty = true)),
    lastMutPush_concat]

/-- C1: when `Parser::accept` is fed a semicolon it ends the current
fragment exactly when both quoting flags are false, in which case the
semicolon is appended to no fragment and a fresh empty fragment becomes
current; with either flag set the semicolon is appended verbatim to the
current fragment and no fragment boundary is created. -/
theorem semicolon_split_iff (p : Parser) :
    ((p.in_string = false ∧ p.in_delimited_identifier = false) →
      (p.accept ';').statements = p.statements ++ [[]]) ∧
    ((p.in_string = true ∨ p.in_delimited_identifier = true) →
      (p.statements = [] → (p.accept ';').statements = [[';']]) ∧
      ∀ front lastF, p.statements = front ++ [lastF] →
        (p.accept ';').statements = front ++ [lastF ++ [';']]) := by
  constructor
  · rintro ⟨hs, hd⟩
    rw [accept_semi_top p hs hd]
  · intro hflag
    have hcond : ¬((';' : Char) = ';' ∧ (updateFlags p ';').in_string = false ∧
        (updateFlags p ';').in_delimited_identifier = false) := by
      rw [updateFlags_semi]
      rcases hflag with h | h <;> simp [h]
    refine ⟨fun h0 => ?_, fun front lastF h0 => ?_⟩
    · rw [accept_append_nil p ';' hcond h0]
    · rw [accept_append_concat p ';' hcond front lastF h0]

/-- Witness for C1 at a concrete scanner state with the string flag set. -/
theorem semicolon_split_iff_witness :
    (Parser.accept
        { statements := [], in_string := true, in_delimited_identifier := false }
        ';').statements = [[';']] :=
  ((semicolon_split_iff
    { statements := [], in_string := true, in_delimited_identifier := false }).2
    (Or.inl rfl)).1 rfl

lemma accept_preserves_not_both (p : Parser) (c : Char)
    (h : p.in_string = false ∨ p.in_delimited_identifier = false) :
    (p.accept c).in_string = false ∨
      (p.accept c).in_delimited_identifier = false := by
  rw [accept_in_string, accept_in_delim]
  by_cases hsq : c = squote
  · subst hsq
    rcases Bool.eq_false_or_eq_true p.in_delimited_identifier with hdel | hdel
    · rw [updateFlags_squote_blocked p hdel]
      exact h
    · rw [updateFlags_squote p hdel]
      right
      dsimp only
      exact hdel
  · by_cases hdq : c = dquote
    · subst hdq
      rcases Bool.eq_false_or_eq_true p.in_string with hstr | hstr
      · rw [updateFlags_dquote_blocked p hstr]
        exact h
      · rw [updateFlags_dquote p hstr]
        left
        dsimp only
        exact hstr
    · rw [updateFlags_of_ne p c hsq hdq]
      exact h

lemma scan_foldl_not_both :
    ∀ (cs : List Char) (p : Parser),
      (p.in_string = false ∨ p.in_delimited_identifier = false) →
      ((cs.foldl Parser.accept p).in_string = false ∨
        (cs.foldl Parser.accept p).in_delimited_identifier = false)
  | [], _, h => h
  | c :: cs, p, h =>
    scan_foldl_not_both cs (p.accept c) (accept_preserves_not_both p c h)

/-- C3: scanning any input from the initial state never sets both quoting
flags; moreover each single character toggles at most one flag, and a flag
toggles only while the other flag is false. -/
theorem flags_never_both (cs : List Char) :
    (¬((scanChars cs).in_string = true ∧
        (scanChars cs).in_delimited_identifier = true)) ∧
    (∀ (p : Parser) (c : Char),
      ((p.accept c).in_string ≠ p.in_string →
        p.in_delimited_identifier = false ∧
        (p.accept c).in_delimited_identifier = p.in_delimited_identifier) ∧
      ((p.accept c).in_delimited_identifier ≠ p.in_delimited_identifier →
        p.in_string = false ∧ (p.accept c).in_string = p.in_string)) := by
  constructor
  · rintro ⟨h1, h2⟩
    have h := scan_foldl_not_both cs initParser (Or.inl rfl)
    unfold scanChars at h1 h2
    rcases h with h0 | h0
    · rw [h0] at h1
      exact Bool.noConfusion h1
    · rw [h0] at h2
      exact Bool.noConfusion h2
  · intro p c
    have hs := accept_in_string p c
    have hd := accept_in_delim p c
    by_cases hsq : c = squote
    · subst hsq
      rcases Bool.eq_false_or_eq_true p.in_delimited_identifier with hdel | hdel
      · rw [updateFlags_squote_blocked p hdel] at hs hd
        exact ⟨fun hcontra => absurd hs hcontra,
          fun hcontra => absurd hd hcontra⟩
      · rw [updateFlags_squote p hdel] at hs hd
        dsimp only at hs hd
        exact ⟨fun _ => ⟨hdel, hd⟩, fun hcontra => absurd hd hcontra⟩
    · by_cases hdq : c = dquote
      · subst hdq
        rcases Bool.eq_false_or_eq_true p.in_string with hstr | hstr
        · rw [updateFlags_dquote_blocked p hstr] at hs hd
          exact ⟨fun hcontra => absurd hs hcontra,
            fun hcontra => absurd hd hcontra⟩
        · rw [updateFlags_dquote p hstr] at hs hd
          dsimp only at hs hd
          exact ⟨fun hcontra => absurd hs hcontra, fun _ => ⟨hstr, hs⟩⟩
      · rw [updateFlags_of_ne p c hsq hdq] at hs hd
        exact ⟨fun hcontra => absurd hs hcontra,
          fun hcontra => absurd hd hcontra⟩

/-- Witness for C3 at a concrete input. -/
theorem flags_never_both_witness :
    ¬((scanChars ("ab;".toList)).in_string = true ∧
      (scanChars ("ab;".toList)).in_delimited_identifier = true) :=
  (flags_never_both ("ab;".toList)).1

/-- C8: the two quote-exclusivity examples — a double quote inside a
single-quoted span does not open identifier mode, and closing the string
re-enables semicolon splitting before a trailing double quote. -/
theorem quote_exclusivity_examples :
    StatementGroup.tryFrom [squote, dquote, ';', squote, dquote] =
      Except.ok [[squote, dquote, ';', squote, dquote]] ∧
    StatementGroup.tryFrom [squote, dquote, squote, ';', dquote] =
      Except.ok [[squote, dquote, squote], [dquote]] :=
  ⟨by decide, by decide⟩

lemma lastMutPush_some_ne_nil (c : Char) (sts r : List (List Char))
    (h : lastMutPush c sts = some r) : r ≠ [] := by
  rcases List.eq_nil_or_concat sts with rfl | ⟨front, lastF, rfl⟩
  · simp [lastMutPush] at h
  · rw [List.concat_eq_append, lastMutPush_concat] at h
    obtain rfl := Option.some.inj h
    simp

/-- C9: the fragment list handed to the final append step of
`Parser::accept` is never empty, so the `unwrap` on `last_mut` cannot
fail, and the scanner state after any accepted character has a non-empty
fragment list. -/
theorem lastMut_unwrap_safe :
    (∀ (sts : List (List Char)) (c : Char),
      (lastMutPush c (if sts.isEmpty then sts ++ [[]] else sts)).isSome = true) ∧
    (∀ (p : Parser) (c : Char), (p.accept c).statements ≠ []) := by
  constructor
  · intro sts c
    apply lastMutPush_isSome
    cases sts <;> simp
  · intro p c
    by_cases hc : c = ';' ∧ (updateFlags p c).in_string = false ∧
        (updateFlags p c).in_delimited_identifier = false
    · rw [accept_top p c hc]
      simp
    · rcases List.eq_nil_or_concat p.statements with h0 | ⟨front, lastF, h0⟩
      · rw [accept_append_nil p c hc h0]
        simp
      · rw [List.concat_eq_append] at h0
        rw [accept_append_concat p c hc front lastF h0]
        simp

lemma checkAll_cons (s : List Char) (rest : List (List Char)) :
    checkAll (s :: rest) =
      match firstKeyword s with
      | some k => some (errMsg k)
      | none => checkAll rest := rfl

lemma firstKeyword_mem (s k : List Char) (h : firstKeyword s = some k) :
    k ∈ keywords :=
  List.mem_of_find?_eq_some h

lemma checkAll_eq_none_iff :
    ∀ (ls : List (List Char)),
      checkAll ls = none ↔ ∀ s ∈ ls, firstKeyword s = none
  | [] => by simp [checkAll]
  | s :: rest => by
    have ih := checkAll_eq_none_iff rest
    cases hfk : firstKeyword s <;>
      simp [checkAll_cons, hfk, List.forall_mem_cons, ih]

lemma checkAll_eq_some :
    ∀ (ls : List (List Char)) (e : List Char), checkAll ls = some e →
      ∃ s k, ls.find? (fun t => (firstKeyword t).isSome) = some s ∧
        firstKeyword s = some k ∧ e = errMsg k
  | [], e, h => by simp [checkAll] at h
  | s :: rest, e, h => by
    rw [checkAll_cons] at h
    cases hfk : firstKeyword s with
    | some k =>
      rw [hfk] at h
      refine ⟨s, k, ?_, hfk, (Option.some.inj h).symm⟩
      rw [List.find?_cons_of_pos]
      simp [hfk]
    | none =>
      rw [hfk] at h
      obtain ⟨t, k, hfind, hk, he⟩ := checkAll_eq_some rest e h
      refine ⟨t, k, ?_, hk, he⟩
      rw [List.find?_cons_of_neg _ (by simp [hfk]), hfind]

/-- C2: the parse fails exactly when some candidate statement's first at
most ten characters, lowercased, start with a reserved keyword, and then
the error is exactly the matched keyword uppercased followed by
" command is not supported in a revision"; no other failure mode exists
(in particular malformed quoting cannot produce an error). -/
theorem tryFrom_error_characterization (input : List Char) :
    ((∃ e, StatementGroup.tryFrom input = Except.error e) ↔
      ∃ s, s ∈ candidates input ∧ firstKeyword s ≠ none) ∧
    (∀ e, StatementGroup.tryFrom input = Except.error e →
      ∃ s k, s ∈ candidates input ∧ k ∈ keywords ∧ firstKeyword s = some k ∧
        e = k.map Char.toUpper ++
          (" command is not supported in a revision").toList) := by
  constructor
  · constructor
    · rintro ⟨e, he⟩
      unfold StatementGroup.tryFrom at he
      cases hca : checkAll (candidates input) with
      | none =>
        rw [hca] at he
        exact Except.noConfusion he
      | some e0 =>
        obtain ⟨s, k, hfind, hk, he0⟩ := checkAll_eq_some _ _ hca
        exact ⟨s, List.mem_of_find?_eq_some hfind,
          by rw [hk]; exact fun hx => Option.noConfusion hx⟩
    · rintro ⟨s, hmem, hne⟩
      unfold StatementGroup.tryFrom
      cases hca : checkAll (candidates input) with
      | some e0 => exact ⟨e0, rfl⟩
      | none => exact absurd ((checkAll_eq_none_iff _).mp hca s hmem) hne
  · intro e he
    unfold StatementGroup.tryFrom at he
    cases hca : checkAll (candidates input) with
    | none =>
      rw [hca] at he
      exact Except.noConfusion he
    | some e0 =>
      rw [hca] at he
      obtain rfl : e0 = e := Except.error.inj he
      obtain ⟨s, k, hfind, hk, rfl⟩ := checkAll_eq_some _ _ hca
      exact ⟨s, k, List.mem_of_find?_eq_some hfind, firstKeyword_mem s k hk,
        hk, rfl⟩

/-- Witness for C2 at a concrete rejected input whose final character is
the Kelvin sign, which lowercases to the letter k. -/
theorem tryFrom_error_characterization_witness :
    ∃ e, StatementGroup.tryFrom ("ROLLBAC".toList ++ [Char.ofNat 8490]) =
      Except.error e :=
  (tryFrom_error_characterization
      ("ROLLBAC".toList ++ [Char.ofNat 8490])).1.mpr
    ⟨"ROLLBAC".toList ++ [Char.ofNat 8490], by decide, by decide⟩

/-- C4: on failure the reported keyword belongs to the first offending
candidate statement in source order; in particular
"rollback; begin; savepoint; commit" fails with ROLLBACK. -/
theorem first_offending_statement_reported (input : List Char) :
    (∀ e, StatementGroup.tryFrom input = Except.error e →
      ∃ s k, (candidates input).find? (fun t => (firstKeyword t).isSome) =
          some s ∧ firstKeyword s = some k ∧ e = errMsg k) ∧
    StatementGroup.tryFrom ("rollback; begin; savepoint; commit".toList) =
      Except.error ("ROLLBACK command is not supported in a revision").toList := by
  constructor
  · intro e he
    unfold StatementGroup.tryFrom at he
    cases hca : checkAll (candidates input) with
    | none =>
      rw [hca] at he
      exact Except.noConfusion he
    | some e0 =>
      rw [hca] at he
      obtain rfl : e0 = e := Except.error.inj he
      exact checkAll_eq_some _ _ hca
  · decide

/-- Witness for C4 at a concrete input whose first offending statement
becomes "rollback" only through the Kelvin sign's Unicode lowercasing, so
the reported keyword is ROLLBACK and not BEGIN. -/
theorem first_offending_statement_reported_witness :
    ∃ s k, (candidates
        ("rollbac".toList ++ Char.ofNat 8490 :: "; begin".toList)).find?
        (fun t => (firstKeyword t).isSome) = some s ∧
      firstKeyword s = some k ∧
      ("ROLLBACK command is not supported in a revision").toList = errMsg k :=
  (first_offending_statement_reported
      ("rollbac".toList ++ Char.ofNat 8490 :: "; begin".toList)).1
    (("ROLLBACK command is not supported in a revision").toList) (by decide)

lemma dropWhile_head_not (w : Char → Bool) :
    ∀ (l : List Char), l.dropWhile w = [] ∨
      ∃ c t, l.dropWhile w = c :: t ∧ w c = false
  | [] => Or.inl rfl
  | c :: l => by
    cases hw : w c
    · exact Or.inr ⟨c, l, List.dropWhile_cons_of_neg (by simp [hw]), hw⟩
    · rw [List.dropWhile_cons_of_pos hw]
      exact dropWhile_head_not w l

lemma dropWhile_suffix (w : Char → Bool) :
    ∀ (l : List Char), ∃ t, t ++ l.dropWhile w = l
  | [] => ⟨[], rfl⟩
  | c :: l => by
    cases hw : w c
    · exact ⟨[], by rw [List.dropWhile_cons_of_neg (by simp [hw])]; rfl⟩
    · obtain ⟨t, ht⟩ := dropWhile_suffix w l
      exact ⟨c :: t, by rw [List.dropWhile_cons_of_pos hw, List.cons_append, ht]⟩

lemma rustTrim_idem (l : List Char) : rustTrim (rustTrim l) = rustTrim l := by
  rcases dropWhile_head_not rustIsWhitespace
      (l.dropWhile rustIsWhitespace).reverse with hm | ⟨d, u, hm, hd⟩
  · have h1 : rustTrim l = [] := by
      unfold rustTrim
      rw [hm]
      rfl
    rw [h1]
    rfl
  · have h1 : rustTrim l = (d :: u : List Char).reverse := by
      unfold rustTrim
      rw [hm]
    obtain ⟨t, ht⟩ := dropWhile_suffix rustIsWhitespace
      (l.dropWhile rustIsWhitespace).reverse
    rw [hm] at ht
    have ha : l.dropWhile rustIsWhitespace = (d :: u).reverse ++ t.reverse := by
      have h2 := congrArg List.reverse ht
      rw [List.reverse_append, List.reverse_reverse] at h2
      exact h2.symm
    obtain haa | ⟨e, t0, hha, hwe⟩ := dropWhile_head_not rustIsWhitespace l
    · rw [haa] at ha
      exact absurd ha.symm (by simp)
    · cases hur : (d :: u : List Char).reverse with
      | nil => exact absurd hur (by simp)
      | cons e2 rest2 =>
        rw [hur] at ha
        rw [hha] at ha
        have hee : e = e2 := by simpa using congrArg List.head? ha
        have hwe2 : rustIsWhitespace e2 = false := hee ▸ hwe
        rw [h1]
        unfold rustTrim
        rw [hur, List.dropWhile_cons_of_neg (by simp [hwe2]), ← hur,
          List.reverse_reverse, List.dropWhile_cons_of_neg (by simp [hd]), hur]

lemma rustTrim_append_white (l : List Char) (c : Char)
    (hc : rustIsWhitespace c = true) :
    rustTrim (l ++ [c]) = rustTrim l := by
  unfold rustTrim
  rw [List.dropWhile_append]
  by_cases h0 : (l.dropWhile rustIsWhitespace).isEmpty = true
  · rw [if_pos h0]
    have h1 : ([c] : List Char).dropWhile rustIsWhitespace = [] := by
      rw [List.dropWhile_cons_of_pos hc]
      rfl
    have h2 : l.dropWhile rustIsWhitespace = [] := by
      cases hh : l.dropWhile rustIsWhitespace with
      | nil => rfl
      | cons x xs =>
        rw [hh] at h0
        exact Bool.noConfusion h0
    rw [h1, h2]
  · rw [if_neg h0, List.reverse_append]
    simp only [List.reverse_cons, List.reverse_nil, List.nil_append,
      List.singleton_append]
    rw [List.dropWhile_cons_of_pos hc]

lemma rustTrim_all_white (l : List Char)
    (h : ∀ x ∈ l, rustIsWhitespace x = true) : rustTrim l = [] := by
  unfold rustTrim
  rw [List.dropWhile_eq_nil_iff.mpr h]
  rfl

lemma rustTrim_subset (l : List Char) : ∀ x ∈ rustTrim l, x ∈ l := by
  intro x hx
  unfold rustTrim at hx
  rw [List.mem_reverse] at hx
  obtain ⟨t1, ht1⟩ := dropWhile_suffix rustIsWhitespace
    (l.dropWhile rustIsWhitespace).reverse
  have hx2 : x ∈ (l.dropWhile rustIsWhitespace).reverse := by
    rw [← ht1]
    exact List.mem_append.mpr (Or.inr hx)
  rw [List.mem_reverse] at hx2
  obtain ⟨t2, ht2⟩ := dropWhile_suffix rustIsWhitespace l
  rw [← ht2]
  exact List.mem_append.mpr (Or.inr hx2)

lemma white_ne_semi (c : Char) (h : rustIsWhitespace c = true) : c ≠ ';' := by
  intro h0
  rw [h0] at h
  exact absurd h (by decide)

lemma white_ne_squote (c : Char) (h : rustIsWhitespace c = true) :
    c ≠ squote := by
  intro h0
  rw [h0] at h
  exact absurd h (by decide)

lemma white_ne_dquote (c : Char) (h : rustIsWhitespace c = true) :
    c ≠ dquote := by
  intro h0
  rw [h0] at h
  exact absurd h (by decide)

lemma scan_white_semi :
    ∀ (cs : List Char) (p : Parser),
      (∀ c ∈ cs, c = ';' ∨ rustIsWhitespace c = true) →
      p.in_string = false → p.in_delimited_identifier = false →
      (∀ f ∈ p.statements, ∀ x ∈ f, rustIsWhitespace x = true) →
      ∀ f ∈ (cs.foldl Parser.accept p).statements, ∀ x ∈ f,
        rustIsWhitespace x = true
  | [], _, _, _, _, hp => hp
  | c :: cs, p, hcs, hs, hd, hp => by
    rw [List.foldl_cons]
    have hcs2 : ∀ x ∈ cs, x = ';' ∨ rustIsWhitespace x = true :=
      fun x hx => hcs x (List.mem_cons_of_mem c hx)
    rcases hcs c (List.mem_cons_self c cs) with rfl | hcw
    · have hacc := accept_semi_top p hs hd
      refine scan_white_semi cs (p.accept ';') hcs2 ?_ ?_ ?_
      · rw [hacc]
        exact hs
      · rw [hacc]
        exact hd
      · rw [hacc]
        intro f hf
        rcases List.mem_append.mp hf with hf1 | hf2
        · exact hp f hf1
        · obtain rfl : f = [] := by simpa using hf2
          intro x hx
          exact absurd hx (List.not_mem_nil x)
    · have hne : ¬(c = ';' ∧ (updateFlags p c).in_string = false ∧
          (updateFlags p c).in_delimited_identifier = false) :=
        fun hx => (white_ne_semi c hcw) hx.1
      have hup : updateFlags p c = p :=
        updateFlags_of_ne p c (white_ne_squote c hcw) (white_ne_dquote c hcw)
      rcases List.eq_nil_or_concat p.statements with h0 | ⟨front, lastF, h0⟩
      · have hacc := accept_append_nil p c hne h0
        rw [hup] at hacc
        refine scan_white_semi cs (p.accept c) hcs2 ?_ ?_ ?_
        · rw [hacc]
          exact hs
        · rw [hacc]
          exact hd
        · rw [hacc]
          intro f hf
          obtain rfl : f = [c] := by simpa using hf
          intro x hx
          obtain rfl : x = c := by simpa using hx
          exact hcw
      · rw [List.concat_eq_append] at h0
        have hacc := accept_append_concat p c hne front lastF h0
        rw [hup] at hacc
        refine scan_white_semi cs (p.accept c) hcs2 ?_ ?_ ?_
        · rw [hacc]
          exact hs
        · rw [hacc]
          exact hd
        · rw [hacc]
          intro f hf
          rcases List.mem_append.mp hf with hf1 | hf2
          · exact hp f (by rw [h0]; exact List.mem_append.mpr (Or.inl hf1))
          · obtain rfl : f = lastF ++ [c] := by simpa using hf2
            intro x hx
            rcases List.mem_append.mp hx with hx1 | hx2
            · exact hp lastF
                (by rw [h0]; exact List.mem_append.mpr (Or.inr (by simp)))
                x hx1
            · obtain rfl : x = c := by simpa using hx2
              exact hcw

lemma splitNL_ne_nil : ∀ (s : List Char), splitNL s ≠ []
  | [] => by simp [splitNL]
  | c :: cs => by
    unfold splitNL
    by_cases h : c = '\n'
    · rw [if_pos h]
      simp
    · rw [if_neg h]
      cases hsp : splitNL cs <;> simp

lemma splitNL_mem : ∀ (s : List Char) (l : List Char), l ∈ splitNL s →
    ∀ x ∈ l, x ∈ s
  | [], l, hl => by
    simp only [splitNL, List.mem_singleton] at hl
    subst hl
    intro x hx
    exact absurd hx (List.not_mem_nil x)
  | c :: cs, l, hl => by
    unfold splitNL at hl
    by_cases h : c = '\n'
    · rw [if_pos h] at hl
      rcases List.mem_cons.mp hl with rfl | hl2
      · intro x hx
        exact absurd hx (List.not_mem_nil x)
      · intro x hx
        exact List.mem_cons_of_mem c (splitNL_mem cs l hl2 x hx)
    · rw [if_neg h] at hl
      cases hsp : splitNL cs with
      | nil => exact absurd hsp (splitNL_ne_nil cs)
      | cons seg rest =>
        rw [hsp] at hl
        rcases List.mem_cons.mp hl with rfl | hl2
        · intro x hx
          rcases List.mem_cons.mp hx with rfl | hx2
          · exact List.mem_cons_self x cs
          · exact List.mem_cons_of_mem c (splitNL_mem cs seg
              (by rw [hsp]; exact List.mem_cons_self seg rest) x hx2)
        · intro x hx
          exact List.mem_cons_of_mem c (splitNL_mem cs l
            (by rw [hsp]; exact List.mem_cons_of_mem seg hl2) x hx)

lemma stripCR_subset (l : List Char) : ∀ x ∈ stripCR l, x ∈ l := by
  intro x hx
  unfold stripCR at hx
  split at hx
  · exact (List.dropLast_sublist l).subset hx
  · exact hx

lemma rustLines_mem (s : List Char) (l : List Char) (hl : l ∈ rustLines s) :
    ∀ x ∈ l, x ∈ s := by
  unfold rustLines at hl
  cases hlast : (splitNL s).getLast? with
  | none =>
    rw [hlast] at hl
    exact absurd hl (List.not_mem_nil l)
  | some lastSeg =>
    rw [hlast] at hl
    rcases List.mem_append.mp hl with hl1 | hl2
    · obtain ⟨seg, hseg, rfl⟩ := List.mem_map.mp hl1
      intro x hx
      exact splitNL_mem s seg ((List.dropLast_sublist _).subset hseg) x
        (stripCR_subset seg x hx)
    · have hl3 : l = lastSeg := by
        by_cases hE : lastSeg.isEmpty = true
        · rw [if_pos hE] at hl2
          exact absurd hl2 (List.not_mem_nil l)
        · rw [if_neg hE] at hl2
          simpa using hl2
      subst hl3
      intro x hx
      obtain ⟨ys, hys⟩ := List.getLast?_eq_some_iff.mp hlast
      exact splitNL_mem s l
        (by rw [hys]; exact List.mem_append.mpr (Or.inr (by simp))) x hx

lemma textOfLines_mem (ls : List (List Char)) (x : Char)
    (hx : x ∈ textOfLines ls) : x = '\n' ∨ ∃ l ∈ ls, x ∈ l := by
  unfold textOfLines at hx
  rw [List.mem_flatten] at hx
  obtain ⟨l2, hl2, hxl2⟩ := hx
  obtain ⟨l, hl, rfl⟩ := List.mem_map.mp hl2
  rcases List.mem_append.mp hxl2 with h1 | h2
  · exact Or.inr ⟨l, hl, h1⟩
  · left
    simpa using h2

lemma foldl_append_nl :
    ∀ (ls : List (List Char)) (a : List Char),
      ls.foldl (fun x y => x ++ y ++ ['\n']) a =
        a ++ (ls.map (fun l => l ++ ['\n'])).flatten
  | [], a => by simp
  | l :: ls, a => by
    rw [List.foldl_cons, foldl_append_nl ls (a ++ l ++ ['\n'])]
    simp [List.append_assoc]

lemma withoutComments_eq (input : List Char) :
    withoutComments input =
      textOfLines ((rustLines input).filter (fun l => !(isCommentLine l))) := by
  unfold withoutComments textOfLines
  rw [foldl_append_nl]
  rfl

lemma withoutComments_chars (input : List Char)
    (h : ∀ c ∈ input, c = ';' ∨ rustIsWhitespace c = true) :
    ∀ c ∈ withoutComments input, c = ';' ∨ rustIsWhitespace c = true := by
  intro c hc
  rw [withoutComments_eq] at hc
  rcases textOfLines_mem _ c hc with rfl | ⟨l, hl, hcl⟩
  · right
    decide
  · exact h c (rustLines_mem input l (List.mem_filter.mp hl).1 c hcl)

lemma tryFrom_ok_eq (input : List Char) (out : List (List Char))
    (hok : StatementGroup.tryFrom input = Except.ok out) :
    out = candidates input := by
  unfold StatementGroup.tryFrom at hok
  cases hca : checkAll (candidates input) with
  | some e =>
    rw [hca] at hok
    exact Except.noConfusion hok
  | none =>
    rw [hca] at hok
    exact (Except.ok.inj hok).symm

/-- C7: every returned statement is non-empty and equal to its own trim
(fragments are trimmed and empty ones discarded); scripts made only of
whitespace and semicolons parse to the empty statement sequence; and
"  one thing  ; two things " yields exactly the two trimmed statements. -/
theorem statements_trimmed_nonempty :
    (∀ (input : List Char) (out : List (List Char)),
      StatementGroup.tryFrom input = Except.ok out →
      ∀ s ∈ out, s ≠ [] ∧ rustTrim s = s) ∧
    (∀ input : List Char,
      (∀ c ∈ input, c = ';' ∨ rustIsWhitespace c = true) →
      StatementGroup.tryFrom input = Except.ok []) ∧
    StatementGroup.tryFrom ("  one thing  ; two things ".toList) =
      Except.ok ["one thing".toList, "two things".toList] := by
  refine ⟨?_, ?_, by decide⟩
  · intro input out hok s hs
    rw [tryFrom_ok_eq input out hok] at hs
    unfold candidates at hs
    obtain ⟨hsm, hsne⟩ := List.mem_filter.mp hs
    obtain ⟨f, hf, rfl⟩ := List.mem_map.mp hsm
    constructor
    · intro h0
      rw [h0] at hsne
      exact Bool.noConfusion hsne
    · exact rustTrim_idem f
  · intro input h
    have hfrag := scan_white_semi (withoutComments input) initParser
      (withoutComments_chars input h) rfl rfl
      (fun f hf => absurd hf (List.not_mem_nil f))
    have hcand : candidates input = [] := by
      unfold candidates
      rw [List.filter_eq_nil_iff]
      intro a ha
      obtain ⟨f, hf, rfl⟩ := List.mem_map.mp ha
      rw [rustTrim_all_white f (hfrag f hf)]
      simp
    unfold StatementGroup.tryFrom
    rw [hcand]
    rfl

/-- Witness for C7 at a concrete whitespace-and-semicolon input. -/
theorem statements_trimmed_nonempty_witness :
    StatementGroup.tryFrom (" ;; ".toList) = Except.ok [] :=
  statements_trimmed_nonempty.2.1 (" ;; ".toList) (by decide)

lemma splitNL_nil : splitNL [] = [[]] := rfl

lemma splitNL_nl (t : List Char) : splitNL ('\n' :: t) = [] :: splitNL t := by
  simp [splitNL]

lemma splitNL_cons_ne (c : Char) (t : List Char) (h : c ≠ '\n') :
    ∃ s0 rest, splitNL t = s0 :: rest ∧ splitNL (c :: t) = (c :: s0) :: rest := by
  cases hsp : splitNL t with
  | nil => exact absurd hsp (splitNL_ne_nil t)
  | cons s0 rest =>
    refine ⟨s0, rest, rfl, ?_⟩
    simp only [splitNL]
    rw [if_neg h, hsp]

lemma rustLines_char (s : List Char) (s0 : List Char) (rest : List (List Char))
    (h : splitNL s = rest ++ [s0]) :
    rustLines s = rest.map stripCR ++ (if s0.isEmpty then [] else [s0]) := by
  unfold rustLines
  rw [h, List.getLast?_concat, List.dropLast_concat]

lemma rustLines_nil : rustLines [] = [] := rfl

lemma rustLines_nl_cons (t : List Char) :
    rustLines ('\n' :: t) = [] :: rustLines t := by
  rcases List.eq_nil_or_concat (splitNL t) with h0 | ⟨rest, s0, h0⟩
  · exact absurd h0 (splitNL_ne_nil t)
  · rw [List.concat_eq_append] at h0
    have hA : splitNL ('\n' :: t) = ([] :: rest) ++ [s0] := by
      rw [splitNL_nl, h0]
      rfl
    rw [rustLines_char ('\n' :: t) s0 ([] :: rest) hA,
      rustLines_char t s0 rest h0]
    rfl

lemma rustLines_cr_nl (t : List Char) :
    rustLines ('\r' :: '\n' :: t) = [] :: rustLines t := by
  rcases List.eq_nil_or_concat (splitNL t) with h0 | ⟨rest, s0, h0⟩
  · exact absurd h0 (splitNL_ne_nil t)
  · rw [List.concat_eq_append] at h0
    obtain ⟨s1, rest1, hs1, hsp⟩ := splitNL_cons_ne '\r' ('\n' :: t) (by decide)
    rw [splitNL_nl, h0] at hs1
    obtain ⟨ha, hb⟩ := List.cons.inj hs1
    have hA : splitNL ('\r' :: '\n' :: t) = (['\r'] :: rest) ++ [s0] := by
      rw [hsp, ← ha, ← hb]
      rfl
    rw [rustLines_char _ s0 (['\r'] :: rest) hA, rustLines_char t s0 rest h0]
    rfl

lemma stripCR_cons (c : Char) (l : List Char) (h : l ≠ []) :
    stripCR (c :: l) = c :: stripCR l := by
  cases l with
  | nil => exact absurd rfl h
  | cons d u =>
    unfold stripCR
    rw [List.getLast?_cons_cons]
    split_ifs with hl
    · rfl
    · rfl

lemma stripCR_singleton (c : Char) (h : c ≠ '\r') : stripCR [c] = [c] := by
  unfold stripCR
  rw [if_neg (fun hx => h (by simpa using hx))]

lemma splitNL_head_nil : ∀ (t : List Char) (rest2 : List (List Char)),
    splitNL t = [] :: rest2 → rest2 ≠ [] → t.head? = some '\n'
  | [], rest2, h, hne => by
    rw [splitNL_nil] at h
    obtain ⟨_, h2⟩ := List.cons.inj h
    exact absurd h2.symm hne
  | c :: t, rest2, h, _ => by
    by_cases hc : c = '\n'
    · subst hc
      rfl
    · obtain ⟨s0, r, _, hsp⟩ := splitNL_cons_ne c t hc
      rw [hsp] at h
      obtain ⟨h1, _⟩ := List.cons.inj h
      exact absurd h1 (List.cons_ne_nil c s0)

lemma rustLines_cons (c : Char) (t : List Char) (h1 : c ≠ '\n')
    (h2 : ¬(c = '\r' ∧ t.head? = some '\n')) :
    rustLines (c :: t) =
      match rustLines t with
      | [] => [[c]]
      | l :: ls => (c :: l) :: ls := by
  obtain ⟨s0, rest, hs0, hsp⟩ := splitNL_cons_ne c t h1
  rcases List.eq_nil_or_concat rest with rfl | ⟨mid, slast, hrest⟩
  · have hB := rustLines_char t s0 [] (by rw [hs0]; rfl)
    have hA := rustLines_char (c :: t) (c :: s0) [] (by rw [hsp]; rfl)
    have hA2 : rustLines (c :: t) = [c :: s0] := by
      rw [hA]
      rfl
    by_cases hE : s0.isEmpty = true
    · have hs0nil : s0 = [] := by
        cases s0 with
        | nil => rfl
        | cons a b => exact Bool.noConfusion hE
      subst hs0nil
      have hBnil : rustLines t = [] := by
        rw [hB]
        rfl
      rw [hA2, hBnil]
    · have hB2 : rustLines t = [s0] := by
        rw [hB]
        cases s0 with
        | nil => exact absurd rfl hE
        | cons a b => rfl
      rw [hA2, hB2]
  · rw [List.concat_eq_append] at hrest
    subst hrest
    have hB := rustLines_char t slast (s0 :: mid) (by rw [hs0]; rfl)
    have hA := rustLines_char (c :: t) slast ((c :: s0) :: mid)
      (by rw [hsp]; rfl)
    have hstrip : stripCR (c :: s0) = c :: stripCR s0 := by
      cases hs0nil : s0 with
      | nil =>
        subst hs0nil
        have hh : t.head? = some '\n' :=
          splitNL_head_nil t (mid ++ [slast]) hs0 (by simp)
        have hcr : c ≠ '\r' := fun hc => h2 ⟨hc, hh⟩
        rw [stripCR_singleton c hcr]
        rfl
      | cons a b => exact stripCR_cons c (a :: b) (List.cons_ne_nil a b)
    rw [hA, hB]
    simp only [List.map_cons, List.cons_append]
    rw [hstrip]

lemma rustLines_ne_nil : ∀ (t : List Char), t ≠ [] → rustLines t ≠ []
  | [], h => absurd rfl h
  | c :: t, _ => by
    by_cases h1 : c = '\n'
    · subst h1
      rw [rustLines_nl_cons]
      simp
    · by_cases h2 : c = '\r' ∧ t.head? = some '\n'
      · obtain ⟨rfl, hh⟩ := h2
        cases t with
        | nil => exact absurd hh (by simp)
        | cons c2 t2 =>
          obtain rfl : c2 = '\n' := by simpa using hh
          rw [rustLines_cr_nl]
          simp
      · rw [rustLines_cons c t h1 h2]
        cases rustLines t <;> simp

lemma textOfLines_cons (l : List Char) (ls : List (List Char)) :
    textOfLines (l :: ls) = l ++ '\n' :: textOfLines ls := by
  simp [textOfLines]

lemma rustLines_line_append :
    ∀ (l : List Char) (rest : List Char), ('\n') ∉ l →
      l.getLast? ≠ some '\r' →
      rustLines (l ++ '\n' :: rest) = l :: rustLines rest
  | [], rest, _, _ => by
    rw [List.nil_append, rustLines_nl_cons]
  | c :: l, rest, hnl, hcr => by
    have hc : c ≠ '\n' := fun h => hnl (h ▸ List.mem_cons_self c l)
    have hnl2 : ('\n') ∉ l := fun h => hnl (List.mem_cons_of_mem c h)
    have hcr2 : l.getLast? ≠ some '\r' := by
      cases hl : l with
      | nil => simp
      | cons d u =>
        rw [hl] at hcr
        intro h0
        apply hcr
        rw [List.getLast?_cons_cons]
        exact h0
    have hcond : ¬(c = '\r' ∧ (l ++ '\n' :: rest).head? = some '\n') := by
      rintro ⟨rfl, hh⟩
      cases hl : l with
      | nil =>
        rw [hl] at hcr
        exact hcr rfl
      | cons d u =>
        rw [hl] at hh
        have hd : d = '\n' := by simpa using hh
        apply hnl2
        rw [hl, hd]
        exact List.mem_cons_self _ _
    rw [List.cons_append, rustLines_cons c (l ++ '\n' :: rest) hc hcond,
      rustLines_line_append l rest hnl2 hcr2]

lemma rustLines_textOfLines (ls : List (List Char))
    (h : ∀ l ∈ ls, ('\n') ∉ l ∧ l.getLast? ≠ some '\r') :
    rustLines (textOfLines ls) = ls := by
  induction ls with
  | nil => rfl
  | cons l ls ih =>
    rw [textOfLines_cons]
    obtain ⟨hnl, hcr⟩ := h l (List.mem_cons_self l ls)
    rw [rustLines_line_append l (textOfLines ls) hnl hcr,
      ih (fun x hx => h x (List.mem_cons_of_mem l hx))]

/-- C5: a comment line (one whose trimmed form starts with two hyphens)
inserted anywhere into the line structure of a script is removed before
scanning: the parse result is the same as without that line, so its
characters never reach the scanner or any output statement and cause no
split. -/
theorem comment_lines_removed (ls1 ls2 : List (List Char)) (cl : List Char)
    (h1 : ∀ l ∈ ls1 ++ ls2, ('\n') ∉ l ∧ l.getLast? ≠ some '\r')
    (hcl1 : ('\n') ∉ cl ∧ cl.getLast? ≠ some '\r')
    (hc : isCommentLine cl = true) :
    StatementGroup.tryFrom (textOfLines (ls1 ++ cl :: ls2)) =
      StatementGroup.tryFrom (textOfLines (ls1 ++ ls2)) := by
  have hA : rustLines (textOfLines (ls1 ++ cl :: ls2)) = ls1 ++ cl :: ls2 := by
    apply rustLines_textOfLines
    intro l hl
    rcases List.mem_append.mp hl with h | h
    · exact h1 l (List.mem_append.mpr (Or.inl h))
    · rcases List.mem_cons.mp h with rfl | h
      · exact hcl1
      · exact h1 l (List.mem_append.mpr (Or.inr h))
  have hB : rustLines (textOfLines (ls1 ++ ls2)) = ls1 ++ ls2 :=
    rustLines_textOfLines _ h1
  have hwc : withoutComments (textOfLines (ls1 ++ cl :: ls2)) =
      withoutComments (textOfLines (ls1 ++ ls2)) := by
    unfold withoutComments
    rw [hA, hB, List.filter_append, List.filter_append, List.filter_cons, hc]
    simp
  unfold StatementGroup.tryFrom candidates
  rw [hwc]

/-- Witness for C5 at a concrete script with one comment line. -/
theorem comment_lines_removed_witness :
    StatementGroup.tryFrom (textOfLines [['a'], ['-', '-', 'x']]) =
      StatementGroup.tryFrom (textOfLines [['a']]) :=
  comment_lines_removed [['a']] [] ['-', '-', 'x'] (by decide) (by decide)
    (by decide)

lemma textOfLines_rustLines :
    ∀ (s : List Char), ('\r') ∉ s →
      textOfLines (rustLines s) = s ∨ textOfLines (rustLines s) = s ++ ['\n']
  | [], _ => Or.inl rfl
  | c :: t, hcr => by
    have hcr2 : ('\r') ∉ t := fun h => hcr (List.mem_cons_of_mem c h)
    have hcne : c ≠ '\r' := fun h => hcr (h ▸ List.mem_cons_self c t)
    by_cases hc : c = '\n'
    · subst hc
      rw [rustLines_nl_cons, textOfLines_cons]
      rcases textOfLines_rustLines t hcr2 with he | he
      · left
        rw [he]
        rfl
      · right
        rw [he]
        rfl
    · rw [rustLines_cons c t hc (fun hx => hcne hx.1)]
      cases hRL : rustLines t with
      | nil =>
        have ht : t = [] := by
          by_contra hne
          exact rustLines_ne_nil t hne hRL
        subst ht
        right
        rfl
      | cons l ls =>
        rcases textOfLines_rustLines t hcr2 with he | he
        · left
          rw [hRL, textOfLines_cons] at he
          show textOfLines ((c :: l) :: ls) = c :: t
          rw [textOfLines_cons, List.cons_append, he]
        · right
          rw [hRL, textOfLines_cons] at he
          show textOfLines ((c :: l) :: ls) = (c :: t) ++ ['\n']
          rw [textOfLines_cons, List.cons_append, he]
          rfl

lemma noTopSemi_cons (p : Parser) (c : Char) (cs : List Char) :
    noTopSemi p (c :: cs) =
      ((!(decide (c = ';') && !p.in_string && !p.in_delimited_identifier)) &&
        noTopSemi (p.accept c) cs) := rfl

lemma noTopSemi_head (p : Parser) (c : Char) (cs : List Char)
    (h : noTopSemi p (c :: cs) = true) :
    ¬(c = ';' ∧ (updateFlags p c).in_string = false ∧
      (updateFlags p c).in_delimited_identifier = false) ∧
    noTopSemi (p.accept c) cs = true := by
  rw [noTopSemi_cons, Bool.and_eq_true] at h
  obtain ⟨h1, h2⟩ := h
  refine ⟨?_, h2⟩
  rintro ⟨rfl, hs, hd⟩
  rw [updateFlags_semi] at hs hd
  rw [hs, hd] at h1
  simp at h1

lemma foldl_accept_concat :
    ∀ (cs : List Char) (p : Parser), noTopSemi p cs = true →
      ∀ (front : List (List Char)) (lastF : List Char),
        p.statements = front ++ [lastF] →
        (cs.foldl Parser.accept p).statements = front ++ [lastF ++ cs]
  | [], _, _, _, lastF, hp => by simpa using hp
  | c :: cs, p, h, front, lastF, hp => by
    obtain ⟨h1, h2⟩ := noTopSemi_head p c cs h
    rw [List.foldl_cons]
    have hacc := accept_append_concat p c h1 front lastF hp
    have ih := foldl_accept_concat cs (p.accept c) h2 front (lastF ++ [c])
      (by rw [hacc])
    rw [ih]
    simp

lemma foldl_accept_from_nil (cs : List Char) (p : Parser)
    (h : noTopSemi p cs = true) (hp : p.statements = []) (hne : cs ≠ []) :
    (cs.foldl Parser.accept p).statements = [cs] := by
  cases cs with
  | nil => exact absurd rfl hne
  | cons c cs2 =>
    obtain ⟨h1, h2⟩ := noTopSemi_head p c cs2 h
    rw [List.foldl_cons]
    have hacc := accept_append_nil p c h1 hp
    have ih := foldl_accept_concat cs2 (p.accept c) h2 [] [c]
      (by rw [hacc]; rfl)
    rw [ih]
    rfl

/-- C6 (amended): for an input with no carriage returns, no comment lines,
no semicolon reached outside both quoting contexts, a non-empty trim, and
whose trimmed text does not start (case-insensitively, in its first ten
characters) with a reserved keyword, the parse succeeds with exactly one
statement equal to the whitespace-trimmed input. -/
theorem single_statement_roundtrip (input : List Char)
    (hcr : ('\r') ∉ input)
    (hnc : ∀ l ∈ rustLines input, isCommentLine l = false)
    (hsemi : noTopSemi initParser (withoutComments input) = true)
    (hne : rustTrim input ≠ [])
    (hkw : firstKeyword (rustTrim input) = none) :
    StatementGroup.tryFrom input = Except.ok [rustTrim input] := by
  have hfilter : (rustLines input).filter (fun l => !(isCommentLine l)) =
      rustLines input :=
    List.filter_eq_self.mpr (fun l hl => by rw [hnc l hl]; rfl)
  have hwc : withoutComments input = textOfLines (rustLines input) := by
    rw [withoutComments_eq, hfilter]
  have htw : rustTrim (withoutComments input) = rustTrim input := by
    rw [hwc]
    rcases textOfLines_rustLines input hcr with he | he
    · rw [he]
    · rw [he, rustTrim_append_white input '\n' (by decide)]
  have hwcne : withoutComments input ≠ [] := by
    intro h0
    rw [h0] at htw
    exact hne (htw.symm.trans rfl)
  have hstmts : (scanChars (withoutComments input)).statements =
      [withoutComments input] :=
    foldl_accept_from_nil (withoutComments input) initParser hsemi rfl hwcne
  have hcand : candidates input = [rustTrim input] := by
    unfold candidates
    rw [hstmts]
    simp only [List.map_cons, List.map_nil]
    rw [htw, List.filter_cons]
    have hkeep : (!(rustTrim input).isEmpty) = true := by
      cases hT : rustTrim input with
      | nil => exact absurd hT hne
      | cons a b => rfl
    rw [hkeep]
    rfl
  have hch : checkAll [rustTrim input] = none := by
    rw [checkAll_cons, hkw]
    rfl
  unfold StatementGroup.tryFrom
  rw [hcand, hch]

/-- Witness for C6 at a concrete single-statement input. -/
theorem single_statement_roundtrip_witness :
    StatementGroup.tryFrom ("ok".toList) = Except.ok [rustTrim ("ok".toList)] :=
  single_statement_roundtrip ("ok".toList) (by decide) (by decide) (by decide)
    (by decide) (by decide)

/-- C6 counterexample: the input "begin" is a single statement with no
semicolon outside quotes, no comment line and no carriage return, yet the
parse does not return it: the keyword policy rejects it. -/
theorem single_statement_counterexample :
    (('\r') ∉ ("begin".toList) ∧
      (∀ l ∈ rustLines ("begin".toList), isCommentLine l = false) ∧
      noTopSemi initParser (withoutComments ("begin".toList)) = true ∧
      rustTrim ("begin".toList) ≠ []) ∧
    StatementGroup.tryFrom ("begin".toList) ≠
      Except.ok [rustTrim ("begin".toList)] := by
  refine ⟨⟨by decide, by decide, by decide, by decide⟩, by decide⟩

lemma hasRRN_cons3 (c1 c2 c3 : Char) (t : List Char) :
    hasRRN (c1 :: c2 :: c3 :: t) =
      if c1 = '\r' ∧ c2 = '\r' ∧ c3 = '\n' then true
      else hasRRN (c2 :: c3 :: t) := rfl

lemma hasRRN_tail (c : Char) :
    ∀ (t : List Char), hasRRN (c :: t) = false → hasRRN t = false
  | [], _ => rfl
  | [_], _ => rfl
  | c2 :: c3 :: t3, h => by
    rw [hasRRN_cons3] at h
    split_ifs at h
    exact h

lemma replaceCRLF_cons2 (c1 c2 : Char) (t : List Char) :
    replaceCRLF (c1 :: c2 :: t) =
      if c1 = '\r' ∧ c2 = '\n' then '\n' :: replaceCRLF t
      else c1 :: replaceCRLF (c2 :: t) := rfl

lemma replaceCRLF_head :
    ∀ (c : Char) (t : List Char),
      (replaceCRLF (c :: t)).head? = some c ∨ (c = '\r' ∧ t.head? = some '\n')
  | _, [] => Or.inl rfl
  | c, c2 :: t2 => by
    by_cases h : c = '\r' ∧ c2 = '\n'
    · refine Or.inr ⟨h.1, ?_⟩
      rw [h.2]
      rfl
    · left
      rw [replaceCRLF_cons2, if_neg h]
      rfl

lemma rustLines_replaceCRLF :
    ∀ (s : List Char), hasRRN s = false →
      rustLines (replaceCRLF s) = rustLines s
  | [], _ => rfl
  | [_], _ => rfl
  | c1 :: c2 :: rest, h => by
    have htail : hasRRN (c2 :: rest) = false := hasRRN_tail c1 (c2 :: rest) h
    by_cases h12 : c1 = '\r' ∧ c2 = '\n'
    · obtain ⟨rfl, rfl⟩ := h12
      rw [replaceCRLF_cons2, if_pos ⟨rfl, rfl⟩, rustLines_nl_cons,
        rustLines_cr_nl, rustLines_replaceCRLF rest (hasRRN_tail _ rest htail)]
    · rw [replaceCRLF_cons2, if_neg h12]
      by_cases h1 : c1 = '\n'
      · subst h1
        rw [rustLines_nl_cons, rustLines_nl_cons,
          rustLines_replaceCRLF (c2 :: rest) htail]
      · have hcond2 : ¬(c1 = '\r' ∧ (c2 :: rest).head? = some '\n') := by
          rintro ⟨rfl, hh⟩
          have hc2 : c2 = '\n' := by simpa using hh
          exact h12 ⟨rfl, hc2⟩
        have hcondL : ¬(c1 = '\r' ∧
            (replaceCRLF (c2 :: rest)).head? = some '\n') := by
          rintro ⟨rfl, hh⟩
          rcases replaceCRLF_head c2 rest with hh2 | ⟨rfl, hh3⟩
          · rw [hh] at hh2
            exact h12 ⟨rfl, (Option.some.inj hh2).symm⟩
          · cases rest with
            | nil => exact Option.noConfusion hh3
            | cons c3 t3 =>
              obtain rfl : c3 = '\n' := by simpa using hh3
              rw [hasRRN_cons3, if_pos ⟨rfl, rfl, rfl⟩] at h
              exact Bool.noConfusion h
        rw [rustLines_cons c1 (replaceCRLF (c2 :: rest)) h1 hcondL,
          rustLines_cons c1 (c2 :: rest) h1 hcond2,
          rustLines_replaceCRLF (c2 :: rest) htail]

/-- C10 (amended): for every input containing no CR CR LF sequence,
replacing every CRLF by LF does not change the parse result; the
pre-filter strips the carriage return of each CRLF line ending. -/
theorem crlf_insensitive (input : List Char) (h : hasRRN input = false) :
    StatementGroup.tryFrom (replaceCRLF input) =
      StatementGroup.tryFrom input := by
  have hwc : withoutComments (replaceCRLF input) = withoutComments input := by
    unfold withoutComments
    rw [rustLines_replaceCRLF input h]
  unfold StatementGroup.tryFrom candidates
  rw [hwc]

/-- Witness for C10 at a concrete CRLF input. -/
theorem crlf_insensitive_witness :
    StatementGroup.tryFrom (replaceCRLF ("a\r\nb".toList)) =
      StatementGroup.tryFrom ("a\r\nb".toList) :=
  crlf_insensitive ("a\r\nb".toList) (by decide)

/-- C10 counterexample: on "x\r\r\ny" the parse of the CRLF-normalized
input differs from the parse of the original, because Rust lines() strips
one more carriage return than the replacement removes. -/
theorem crlf_counterexample :
    StatementGroup.tryFrom (replaceCRLF ("x\r\r\ny".toList)) ≠
      StatementGroup.tryFrom ("x\r\r\ny".toList) := by decide


end Jrny
